import Mathlib

/-!
Shallow embedding of the reconclare hierarchical break-detection and
drill-down engine (`src/backend/agents/`: `state.py`, `supervisor.py`,
`level_agents.py`, `specialist_agents.py`, `workflow.py`).

Modelling conventions:
* Python floats are modelled as exact rationals (`ℚ`); no floating-point
  rounding is modelled.
* Python strings are Lean `String`s.  Python's `str.lower()` and slicing
  `s[:n]` are modelled character-wise (`py_lower`, `py_take`), which agrees
  with CPython on the ASCII data this engine produces.
* Wall-clock timestamps, audit traces (`agent_trace`, `messages`,
  `queries_executed`, `graph_traversals`), `current_agent`, `max_steps` and
  the LLM-generated `root_cause_narrative` are log/report baggage that no
  branch of the engine reads back; they are omitted from the state.
* Every external collaborator call (SQL fetch, graph query, LLM call) is an
  input: the `ExternalData` record carries the value each call site returns
  (the source wraps each call in `try/except` returning a deterministic
  fallback, so calls are total functions of these inputs).
* Numeric interpolation inside human-readable description strings (Python
  f-string `:,.2f` formatting) is elided; the non-numeric parts that feed
  the root-cause deduplication keys are kept.
* Python `for` loops that only append findings are translated to list
  concatenations; loops that thread state (the L2 specialist worklist, the
  L3 per-position forensics) stay as folds.
-/

namespace Reconclare

/-- Phases of the workflow, from `state.py` `AnalysisPhase`. -/
inductive AnalysisPhase where
  | INITIATED
  | L0_NAV_ANALYSIS
  | L1_GL_ANALYSIS
  | L2_SUBLEDGER_ANALYSIS
  | L3_TRANSACTION_ANALYSIS
  | SPECIALIST_ANALYSIS
  | PATTERN_MATCHING
  | REPORT_GENERATION
  | ESCALATED
  | COMPLETED
deriving DecidableEq

/-- Primary NAV-break driver categories, from `state.py` `BreakDriver`. -/
inductive BreakDriver where
  | INCOME_DRIVEN
  | EXPENSE_DRIVEN
  | POSITION_DRIVEN
  | CAPITAL_ACTIVITY_DRIVEN
  | MULTI_FACTOR
deriving DecidableEq

/-- String value of a `BreakDriver`, mirroring the Python enum `.value`. -/
def BreakDriver.value : BreakDriver → String
  | .INCOME_DRIVEN => "INCOME_DRIVEN"
  | .EXPENSE_DRIVEN => "EXPENSE_DRIVEN"
  | .POSITION_DRIVEN => "POSITION_DRIVEN"
  | .CAPITAL_ACTIVITY_DRIVEN => "CAPITAL_ACTIVITY_DRIVEN"
  | .MULTI_FACTOR => "MULTI_FACTOR"

/-- Inverse of `BreakDriver.value`: models the Python `BreakDriver(category)`
constructor, which raises `ValueError` (here: `none`) on unknown strings. -/
def BreakDriver.ofString (sv : String) : Option BreakDriver :=
  if sv = "INCOME_DRIVEN" then some .INCOME_DRIVEN
  else if sv = "EXPENSE_DRIVEN" then some .EXPENSE_DRIVEN
  else if sv = "POSITION_DRIVEN" then some .POSITION_DRIVEN
  else if sv = "CAPITAL_ACTIVITY_DRIVEN" then some .CAPITAL_ACTIVITY_DRIVEN
  else if sv = "MULTI_FACTOR" then some .MULTI_FACTOR
  else none

/-- Variance data at any reconciliation level, from `state.py`
`VarianceDetail`.  The `sub_details` list of the source is never populated
nor read by any agent and is omitted. -/
structure VarianceDetail where
  component : String
  cpu_value : ℚ
  incumbent_value : ℚ
  variance_absolute : ℚ
  variance_relative : ℚ
  is_material : Bool
deriving DecidableEq

/-- A single finding, from `state.py` `AgentFinding`.  The wall-clock
`timestamp` is omitted; the heterogeneous `evidence` dict is modelled as a
string-valued association list carrying the string-typed entries the engine
reads back (`trans_code`, `asset_id`); numeric evidence entries are elided. -/
structure AgentFinding where
  agent_name : String
  level : String
  description : String
  evidence : List (String × String)
  confidence : ℚ
  recommended_action : String
deriving DecidableEq

/-- A reason for escalating to a human analyst, from `state.py`
`EscalationReason`.  Numeric interpolation inside `description` is elided. -/
structure EscalationReason where
  reason_type : String
  description : String
  threshold_value : Option ℚ
  actual_value : Option ℚ
deriving DecidableEq

/-- Incoming break alert, from `state.py` `BreakAlert`.  The valuation date
is kept as an opaque string; the unused `metadata` dict is omitted. -/
structure BreakAlert where
  break_id : String
  account : String
  share_class : String
  valuation_dt : String
  cpu_nav : ℚ
  incumbent_nav : ℚ
  variance_absolute : ℚ
  variance_relative : ℚ
  shares_outstanding : ℚ
  nav_per_share_variance : ℚ
  fund_type : Option String
  source_system : Option String
deriving DecidableEq

/-- One aggregated root cause, from the dict built in
`supervisor.py` `SupervisorAgent._aggregate_root_causes`. -/
structure RootCause where
  agent : String
  level : String
  description : String
  confidence : ℚ
  evidence : List (String × String)
  recommended_action : String
deriving DecidableEq

/-- One matched transaction pair, from the `match_record` dict of
`level_agents.py` `L3TransactionAgent._match_transactions`. -/
structure MatchRecord where
  transaction_id : String
  trans_code : String
  trade_date : String
  cpu_amount : ℚ
  incumbent_amount : ℚ
deriving DecidableEq

/-- A matched pair whose amounts differ beyond $0.01: a `match_record`
augmented with the `difference` key. -/
structure DiffRecord where
  transaction_id : String
  trans_code : String
  trade_date : String
  cpu_amount : ℚ
  incumbent_amount : ℚ
  difference : ℚ
deriving DecidableEq

/-- An unmatched transaction, from the orphan dict of
`L3TransactionAgent._match_transactions`. -/
structure OrphanRecord where
  transaction_id : String
  trans_code : String
  trade_date : String
  amount_base : ℚ
  system : String
deriving DecidableEq

/-- One breaking position, from the dict built in
`level_agents.py` `L2SubLedgerAgent.analyze`. -/
structure BreakingPosition where
  asset_id : String
  variance_absolute : ℚ
  variance_relative : ℚ
  cpu_value : ℚ
  incumbent_value : ℚ
deriving DecidableEq

/-- One historical break pattern returned by the pattern store, as consumed
by `specialist_agents.py` `PatternAgent._search_patterns`. -/
structure BreakPattern where
  pattern_id : String
  pattern_name : String
  occurrence_count : ℕ
  avg_confidence : ℚ
  resolution_template : String
deriving DecidableEq

/-- One similar historical break returned by the graph store, as consumed by
`PatternAgent._find_similar_breaks`. -/
structure SimilarBreak where
  break_id : String
  resolution_type : String
deriving DecidableEq

/-- A transaction row, from the columns of
`L3TransactionAgent._fetch_transactions` that the matcher reads
(`transaction_id`, `trans_code`, `trade_date`, `amount_base`). -/
structure Txn where
  transaction_id : String
  trans_code : String
  trade_date : String
  amount_base : ℚ
deriving DecidableEq

/-- A position row, from the columns of
`L2SubLedgerAgent._fetch_positions` that the comparator reads. -/
structure PositionRow where
  asset_id : String
  pos_market_value_base : ℚ
deriving DecidableEq

/-- The shared workflow state, from `state.py` `AgentState` (audit-trail and
narrative fields omitted, see the file header). -/
structure AgentState where
  break_alert : Option BreakAlert
  phase : AnalysisPhase
  step_count : ℕ
  nav_variance : Option VarianceDetail
  primary_driver : Option BreakDriver
  l0_findings : List AgentFinding
  gl_variances : List VarianceDetail
  breaking_gl_buckets : List String
  l1_findings : List AgentFinding
  position_variances : List VarianceDetail
  breaking_positions : List BreakingPosition
  l2_findings : List AgentFinding
  transaction_matches : List MatchRecord
  orphan_transactions : List OrphanRecord
  amount_differences : List DiffRecord
  l3_findings : List AgentFinding
  specialist_findings : List AgentFinding
  specialists_invoked : List String
  matched_patterns : List BreakPattern
  historical_similar_breaks : List SimilarBreak
  pattern_findings : List AgentFinding
  all_findings : List AgentFinding
  root_causes : List RootCause
  overall_confidence : ℚ
  should_escalate : Bool
  escalation_reasons : List EscalationReason
deriving DecidableEq

/-- The default-constructed `AgentState()` of the source. -/
def AgentState.initial : AgentState where
  break_alert := none
  phase := .INITIATED
  step_count := 0
  nav_variance := none
  primary_driver := none
  l0_findings := []
  gl_variances := []
  breaking_gl_buckets := []
  l1_findings := []
  position_variances := []
  breaking_positions := []
  l2_findings := []
  transaction_matches := []
  orphan_transactions := []
  amount_differences := []
  l3_findings := []
  specialist_findings := []
  specialists_invoked := []
  matched_patterns := []
  historical_similar_breaks := []
  pattern_findings := []
  all_findings := []
  root_causes := []
  overall_confidence := 0
  should_escalate := false
  escalation_reasons := []

/-- Source `AgentState.add_finding`: append to the `all_findings` aggregate and bump
the step counter. -/
def AgentState.add_finding (s : AgentState) (f : AgentFinding) : AgentState :=
  { s with all_findings := s.all_findings ++ [f], step_count := s.step_count + 1 }

/-- Threshold constants from `config/settings.py`. -/
def MATERIALITY_THRESHOLD_ABSOLUTE : ℚ := 5 / 1000

/-- Relative materiality threshold (0.01%) from `config/settings.py`. -/
def MATERIALITY_THRESHOLD_RELATIVE : ℚ := 1 / 10000

/-- Confidence floor below which the supervisor escalates, from
`config/settings.py`. -/
def CONFIDENCE_ESCALATION_THRESHOLD : ℚ := 7 / 10

/-- Critical break magnitude (0.05% of NAV) from `config/settings.py`. -/
def CRITICAL_BREAK_THRESHOLD : ℚ := 5 / 10000

/-! ## String helpers (CPython semantics, character-wise) -/

/-- Python slicing `s[:n]`, by characters. -/
def py_take (n : ℕ) (s : String) : String :=
  String.mk (s.data.take n)

/-- Python `s.lower()`; agrees with CPython on the ASCII strings the engine
builds. -/
def py_lower (s : String) : String :=
  String.mk (s.data.map Char.toLower)

/-- Lexicographic comparison of character lists by code point, the order
CPython uses for `str` comparison in `sorted`. -/
def char_list_le : List Char → List Char → Bool
  | [], _ => true
  | _ :: _, [] => false
  | a :: as, b :: bs => if a < b then true else if b < a then false else char_list_le as bs

/-- Python `s1 <= s2` on strings (code-point lexicographic). -/
def py_str_le (a b : String) : Bool :=
  char_list_le a.data b.data

/-- Python `sorted(xs)` on strings: stable, ascending.  Realised with the
stable `insertionSort`; any stable sort for this total preorder produces the
same list as CPython's stable sort. -/
def py_sorted_str (l : List String) : List String :=
  l.insertionSort (fun a b => py_str_le a b = true)

/-- Python `sorted(findings, key=lambda f: f.confidence, reverse=True)`:
stable descending by confidence. -/
def py_sorted_by_confidence_desc (l : List AgentFinding) : List AgentFinding :=
  l.insertionSort (fun a b => b.confidence ≤ a.confidence)

/-- Python `sorted(confidences, reverse=True)` on rationals. -/
def py_sorted_desc (l : List ℚ) : List ℚ :=
  l.insertionSort (fun a b => b ≤ a)

/-! ## EscalationPolicy: `AgentState.check_escalation` (`state.py`) -/

/-- The CONFLICTING_CAUSES test of `check_escalation`: more than one root
cause and the top two confidences within 0.15 of each other. -/
def conflicting_causes (root_causes : List RootCause) : Bool :=
  if root_causes.length > 1 then
    match py_sorted_desc (root_causes.map (fun rc => rc.confidence)) with
    | c0 :: c1 :: _ => decide (c0 - c1 < 15 / 100)
    | _ => false
  else false

/-- The escalation reasons accumulated by `AgentState.check_escalation`, in
source order: LOW_CONFIDENCE, CRITICAL_MAGNITUDE, NOVEL_PATTERN,
CONFLICTING_CAUSES. -/
def escalation_reason_list (confidence_threshold critical_nav_threshold : ℚ)
    (s : AgentState) : List EscalationReason :=
  (if s.overall_confidence < confidence_threshold ∧
      s.phase ≠ .INITIATED ∧ s.phase ≠ .L0_NAV_ANALYSIS then
    [{ reason_type := "LOW_CONFIDENCE",
       description := "Confidence below threshold",
       threshold_value := some confidence_threshold,
       actual_value := some s.overall_confidence }]
  else []) ++
  (match s.break_alert with
   | some alert =>
     if |alert.variance_relative| > critical_nav_threshold then
       [{ reason_type := "CRITICAL_MAGNITUDE",
          description := "Break magnitude exceeds critical threshold",
          threshold_value := some critical_nav_threshold,
          actual_value := some |alert.variance_relative| }]
     else []
   | none => []) ++
  (if s.matched_patterns = [] ∧
      (s.phase = .PATTERN_MATCHING ∨ s.phase = .REPORT_GENERATION) then
    [{ reason_type := "NOVEL_PATTERN",
       description := "No matching historical patterns found",
       threshold_value := none, actual_value := none }]
  else []) ++
  (if conflicting_causes s.root_causes then
    [{ reason_type := "CONFLICTING_CAUSES",
       description := "Multiple root causes with similar confidence scores",
       threshold_value := none, actual_value := none }]
  else [])

/-- Source `AgentState.check_escalation`: store the fired reasons and set
`should_escalate` to `len(reasons) > 0`.  The Python method also returns the
flag; callers read it off the state. -/
def check_escalation (confidence_threshold critical_nav_threshold : ℚ)
    (s : AgentState) : AgentState :=
  let reasons := escalation_reason_list confidence_threshold critical_nav_threshold s
  { s with escalation_reasons := reasons,
           should_escalate := decide (reasons.length > 0) }

/-! ## FindingAggregator: `SupervisorAgent` (`supervisor.py`) -/

/-- The fixed level → weight table of
`SupervisorAgent._calculate_confidence`; unknown levels default to 0.10
(`level_weights.get(finding.level, 0.10)`). -/
def level_weight (level : String) : ℚ :=
  if level = "L0_NAV" then 10 / 100
  else if level = "L1_GL" then 20 / 100
  else if level = "L2_SUBLEDGER" then 25 / 100
  else if level = "L3_TRANSACTION" then 25 / 100
  else if level = "SPECIALIST_PRICING" then 15 / 100
  else if level = "SPECIALIST_CA" then 15 / 100
  else if level = "SPECIALIST_ACCRUAL" then 15 / 100
  else if level = "SPECIALIST_FX" then 15 / 100
  else if level = "PATTERN_MATCH" then 20 / 100
  else 10 / 100

/-- Source `SupervisorAgent._calculate_confidence`: confidence-weighted average over
all findings, 0.0 on an empty set, capped at 1.0. -/
def calculate_confidence (s : AgentState) : ℚ :=
  if s.all_findings = [] then 0
  else
    let total_weight := (s.all_findings.map (fun f => level_weight f.level)).sum
    let weighted_confidence :=
      (s.all_findings.map (fun f => f.confidence * level_weight f.level)).sum
    if total_weight = 0 then 0
    else min (weighted_confidence / total_weight) 1

/-- The deduplication key of `_aggregate_root_causes`:
`finding.description[:100].lower()`. -/
def desc_key (f : AgentFinding) : String :=
  py_lower (py_take 100 f.description)

/-- The root-cause dict built from one finding in
`_aggregate_root_causes`. -/
def root_cause_of (f : AgentFinding) : RootCause :=
  { agent := f.agent_name, level := f.level, description := f.description,
    confidence := f.confidence, evidence := f.evidence,
    recommended_action := f.recommended_action }

/-- The main loop of `_aggregate_root_causes` over the sorted findings,
threading the `seen_descriptions` set: skip a finding whose confidence is
below 0.60 (without recording its key), skip a finding whose key was already
seen, keep the rest. -/
def root_cause_loop : List AgentFinding → List String → List RootCause
  | [], _ => []
  | f :: rest, seen =>
    if f.confidence < 60 / 100 then root_cause_loop rest seen
    else if desc_key f ∈ seen then root_cause_loop rest seen
    else root_cause_of f :: root_cause_loop rest (desc_key f :: seen)

/-- Source `SupervisorAgent._aggregate_root_causes`: sort all findings by
descending confidence (stable), run the filter/dedup loop, keep the top
10. -/
def aggregate_root_causes (s : AgentState) : List RootCause :=
  (root_cause_loop (py_sorted_by_confidence_desc s.all_findings) []).take 10

/-! ## VarianceComparator: per-level variance construction -/

/-- One GL-category `VarianceDetail` of
`L1GLAgent._calculate_gl_variances`: absolute variance `cpu - incumbent`,
relative variance defined as 0 when the incumbent value is 0, material iff
the absolute variance exceeds the flat $1,000 GL threshold. -/
def gl_category_variance (cat : String) (cpu_val inc_val : ℚ) : VarianceDetail :=
  { component := cat,
    cpu_value := cpu_val,
    incumbent_value := inc_val,
    variance_absolute := cpu_val - inc_val,
    variance_relative := if inc_val ≠ 0 then (cpu_val - inc_val) / inc_val else 0,
    is_material := decide (|cpu_val - inc_val| > 1000) }

/-- The NAV-level `VarianceDetail` built in `L0NAVAgent.analyze`: variance
figures are copied from the alert; materiality compares the per-share
variance against the $0.005/share threshold. -/
def nav_variance_detail (alert : BreakAlert) : VarianceDetail :=
  { component := "NAV",
    cpu_value := alert.cpu_nav,
    incumbent_value := alert.incumbent_nav,
    variance_absolute := alert.variance_absolute,
    variance_relative := alert.variance_relative,
    is_material := decide (|alert.nav_per_share_variance| > MATERIALITY_THRESHOLD_ABSOLUTE) }

/-- Python-dict lookup with default 0 used by `_calculate_gl_variances`
(`cpu_by_cat.get(cat, 0.0)`); the dict comprehension keeps the last row per
category (categories are unique after the SQL GROUP BY). -/
def balance_lookup (rows : List (String × ℚ)) (cat : String) : ℚ :=
  match (rows.filter (fun r => r.1 = cat)).getLast? with
  | some r => r.2
  | none => 0

/-- Source `L1GLAgent._calculate_gl_variances`: one `VarianceDetail` per category in
the sorted union of both systems' category sets.  The `mappings` argument of
the source is never used in the body and is dropped. -/
def calculate_gl_variances (cpu_gl incumbent_gl : List (String × ℚ)) :
    List VarianceDetail :=
  let all_categories :=
    py_sorted_str ((cpu_gl.map Prod.fst ++ incumbent_gl.map Prod.fst).dedup)
  all_categories.map (fun cat =>
    gl_category_variance cat (balance_lookup cpu_gl cat) (balance_lookup incumbent_gl cat))

/-! ## TransactionMatcher: `L3TransactionAgent` (`level_agents.py`) -/

/-- Source `L3TransactionAgent._fuzzy_match`: same code, same trade date, amounts
within `max(|amount_1| * 0.001, 1.0)`. -/
def fuzzy_match (txn1 txn2 : Txn) : Bool :=
  if txn1.trans_code ≠ txn2.trans_code then false
  else if txn1.trade_date ≠ txn2.trade_date then false
  else if |txn1.amount_base - txn2.amount_base| >
      max (|txn1.amount_base| * (1 / 1000)) 1 then false
  else true

/-- The per-CPU-transaction body of the `_match_transactions` loop: bind to
the first fuzzy-matching incumbent transaction; a bound pair whose amounts
differ by more than $0.01 goes to `diffs` with its delta, otherwise to
`matches`; an unbound transaction becomes a CPU-side orphan. -/
def classify_txn (incumbent_txns : List Txn)
    (acc : List MatchRecord × List OrphanRecord × List DiffRecord) (txn : Txn) :
    List MatchRecord × List OrphanRecord × List DiffRecord :=
  match incumbent_txns.find? (fun inc => fuzzy_match txn inc) with
  | some inc =>
    let diff := txn.amount_base - inc.amount_base
    if |diff| > 1 / 100 then
      (acc.1, acc.2.1, acc.2.2 ++
        [{ transaction_id := txn.transaction_id, trans_code := txn.trans_code,
           trade_date := txn.trade_date, cpu_amount := txn.amount_base,
           incumbent_amount := inc.amount_base, difference := diff }])
    else
      (acc.1 ++
        [{ transaction_id := txn.transaction_id, trans_code := txn.trans_code,
           trade_date := txn.trade_date, cpu_amount := txn.amount_base,
           incumbent_amount := inc.amount_base }], acc.2.1, acc.2.2)
  | none =>
    (acc.1, acc.2.1 ++
      [{ transaction_id := txn.transaction_id, trans_code := txn.trans_code,
         trade_date := txn.trade_date, amount_base := txn.amount_base,
         system := "CPU" }], acc.2.2)

/-- The matching loop of `L3TransactionAgent._match_transactions` over the
CPU and incumbent transaction sets, returning `(matches, orphans, diffs)`.
In the current source the incumbent set is bound to the empty placeholder
(`incumbent_txns = []`, "would come from incumbent data source"); the loop
itself is the general function of both sets embedded here. -/
def match_transactions (cpu_txns incumbent_txns : List Txn) :
    List MatchRecord × List OrphanRecord × List DiffRecord :=
  cpu_txns.foldl (classify_txn incumbent_txns) ([], [], [])

/-- Source `L3TransactionAgent._match_transactions` as invoked by `analyze`: the
whole fetched list is the CPU side and the incumbent side is the empty
placeholder. -/
def match_transactions_stage (transactions : List Txn) :
    List MatchRecord × List OrphanRecord × List DiffRecord :=
  match_transactions transactions []

/-- Source `L3TransactionAgent._recommend_orphan_action`: fixed lookup keyed by
transaction code.  Note the corporate-action arm tests only
`{SPLIT, SPINOFF, CALL, MAT}` — `MERGER` falls through to the manual arm. -/
def recommend_orphan_action (orphan : OrphanRecord) : String :=
  if orphan.trans_code = "DIV" ∨ orphan.trans_code = "INT" then
    "Check income event timing - likely booking date difference"
  else if orphan.trans_code = "BUY" ∨ orphan.trans_code = "SELL" then
    "Verify trade feed completeness - may be missing from incumbent"
  else if orphan.trans_code = "SPLIT" ∨ orphan.trans_code = "SPINOFF" ∨
      orphan.trans_code = "CALL" ∨ orphan.trans_code = "MAT" then
    "Invoke Corporate Action Agent - CA processing difference likely"
  else "Manual investigation required"

/-- Source `L3TransactionAgent._recommend_diff_action`: fixed lookup keyed by
transaction code. -/
def recommend_diff_action (diff : DiffRecord) : String :=
  if diff.trans_code = "DIV" ∨ diff.trans_code = "INT" then
    "Invoke Accrual Agent - check rate/day count inputs"
  else if diff.trans_code = "BUY" ∨ diff.trans_code = "SELL" then
    "Check pricing and FX rates at time of trade"
  else "Compare transaction details field by field"

/-- The fixed corporate-action code set of
`L3TransactionAgent._check_corporate_actions`. -/
def ca_codes : List String := ["SPLIT", "SPINOFF", "CALL", "MAT", "MERGER"]

/-! ## External collaborator inputs

Every SQL/graph/LLM call site of the engine is wrapped in `try/except` with
a deterministic fallback, so each call is a total function of the value the
collaborator returns.  `ExternalData` carries those values, one field per
call site family. -/

/-- Values returned by the external collaborators (data stores, graph,
Reasoner) during one run. -/
structure ExternalData where
  /-- Rows of `L0NAVAgent._fetch_nav_components`: `(gl_category,
  ending_balance)` per ledger row (empty on fetch failure). -/
  nav_components : List (String × ℚ)
  /-- The string the LLM returns in `_classify_break_driver`'s no-breakdown
  fallback (`llm_classify`). -/
  llm_driver_category : String
  /-- Rows of `L1GLAgent._fetch_gl_balances(system="CPU")`:
  `(gl_category, total_balance)`. -/
  cpu_gl : List (String × ℚ)
  /-- Rows of `L1GLAgent._fetch_gl_balances(system="INCUMBENT")`. -/
  incumbent_gl : List (String × ℚ)
  /-- Rows of `L2SubLedgerAgent._fetch_positions`. -/
  positions : List PositionRow
  /-- Rows of `L3TransactionAgent._fetch_transactions` per asset id. -/
  transactions : String → List Txn
  /-- Whether the `llm_reason` call in `L2SubLedgerAgent._analyze_position`
  succeeds (on failure the source falls back to confidence 0.60). -/
  llm_position_ok : Bool
  /-- Patterns returned by `PatternAgent._search_patterns`. -/
  patterns : List BreakPattern
  /-- Historical breaks returned by `PatternAgent._find_similar_breaks`. -/
  similar_breaks : List SimilarBreak
  /-- Whether the specialist agents' `llm_reason` calls succeed. -/
  llm_pricing_ok : Bool
  llm_ca_ok : Bool
  llm_accrual_ok : Bool
  llm_fx_ok : Bool

/-! ## DrillDownEngine nodes (`workflow.py` node functions wrapping the
agents of `supervisor.py`, `level_agents.py`, `specialist_agents.py`) -/

/-- Source `workflow.py` `supervisor_init_node` →
`SupervisorAgent._initialize_analysis`: with no alert the supervisor marks
the run COMPLETED; otherwise only log/strategy baggage is produced. -/
def supervisor_init_node (s : AgentState) : AgentState :=
  let s1 := { s with phase := AnalysisPhase.INITIATED }
  match s1.break_alert with
  | none => { s1 with phase := AnalysisPhase.COMPLETED }
  | some _ => s1

/-- Python dict accumulation `category_totals` of `_classify_break_driver`:
total ending balance per GL category. -/
def category_total (rows : List (String × ℚ)) (cat : String) : ℚ :=
  ((rows.filter (fun r => r.1 = cat)).map Prod.snd).sum

/-- Source `L0NAVAgent._classify_break_driver`: with a GL breakdown, pick the first
category whose total dominates half the NAV variance; without one, parse the
LLM classification, defaulting to MULTI_FACTOR. -/
def classify_break_driver (ext : ExternalData) (alert : BreakAlert) : BreakDriver :=
  if ext.nav_components = [] then
    (BreakDriver.ofString ext.llm_driver_category).getD .MULTI_FACTOR
  else
    let half := |alert.variance_absolute * (1 / 2)|
    if |category_total ext.nav_components "INCOME"| > half then .INCOME_DRIVEN
    else if |category_total ext.nav_components "EXPENSE"| > half then .EXPENSE_DRIVEN
    else if |category_total ext.nav_components "ASSET"| > half then .POSITION_DRIVEN
    else if |category_total ext.nav_components "EQUITY"| > half then .CAPITAL_ACTIVITY_DRIVEN
    else .MULTI_FACTOR

/-- The L0 finding of `L0NAVAgent.analyze` (confidence 0.95; numeric
interpolation elided from the description). -/
def l0_finding (alert : BreakAlert) (driver : BreakDriver) : AgentFinding :=
  { agent_name := "L0_NAV_Agent", level := "L0_NAV",
    description := "NAV break detected for " ++ alert.account ++ "/" ++
      alert.share_class ++ " on " ++ alert.valuation_dt ++
      ". Primary driver: " ++ driver.value ++ ".",
    evidence := [("primary_driver", driver.value)],
    confidence := 95 / 100,
    recommended_action := "Dispatch to L1 GL Agent with focus on " ++
      driver.value ++ " GL accounts" }

/-- Source `workflow.py` `l0_nav_node` → `L0NAVAgent.analyze`. -/
def l0_nav_node (ext : ExternalData) (s : AgentState) : AgentState :=
  let s1 := { s with phase := AnalysisPhase.L0_NAV_ANALYSIS }
  match s1.break_alert with
  | none => s1
  | some alert =>
    let nav := nav_variance_detail alert
    let driver := classify_break_driver ext alert
    let f := l0_finding alert driver
    AgentState.add_finding
      { s1 with nav_variance := some nav, primary_driver := some driver,
                l0_findings := s1.l0_findings ++ [f] } f

/-- The per-bucket L1 finding of `L1GLAgent.analyze` for a material GL
variance (confidence 0.90). -/
def l1_finding (v : VarianceDetail) : AgentFinding :=
  { agent_name := "L1_GL_Agent", level := "L1_GL",
    description := "GL bucket '" ++ v.component ++ "' shows material variance",
    evidence := [("gl_bucket", v.component)],
    confidence := 90 / 100,
    recommended_action := "Drill into sub-ledger positions for GL bucket '" ++
      v.component ++ "'" }

/-- The L1 summary finding of `L1GLAgent.analyze` (confidence 0.90). -/
def l1_summary (breaking_buckets : List String) : AgentFinding :=
  { agent_name := "L1_GL_Agent", level := "L1_GL",
    description := "GL decomposition complete. Breaking buckets: " ++
      String.intercalate ", " breaking_buckets,
    evidence := [],
    confidence := 90 / 100,
    recommended_action := "Dispatch to L2 Sub-Ledger Agent for position-level drill-down" }

/-- Source `workflow.py` `l1_gl_node` → `L1GLAgent.analyze`: compute per-category
GL variances, record the material buckets, emit one finding per material
bucket plus a summary. -/
def l1_gl_node (ext : ExternalData) (s : AgentState) : AgentState :=
  let s1 := { s with phase := AnalysisPhase.L1_GL_ANALYSIS }
  match s1.break_alert with
  | none => s1
  | some _ =>
    let gl_variances := calculate_gl_variances ext.cpu_gl ext.incumbent_gl
    let breaking_buckets :=
      (gl_variances.filter (fun v => v.is_material)).map (fun v => v.component)
    let fs := (gl_variances.filter (fun v => v.is_material)).map l1_finding ++
      [l1_summary breaking_buckets]
    { s1 with gl_variances := gl_variances,
              breaking_gl_buckets := breaking_buckets,
              l1_findings := s1.l1_findings ++ fs,
              all_findings := s1.all_findings ++ fs,
              step_count := s1.step_count + fs.length }

/-- Source `L2SubLedgerAgent._compare_positions`: the incumbent side of each
position is the CPU market value itself (placeholder for the missing
incumbent source), so every variance is 0 and immaterial. -/
def compare_positions (positions : List PositionRow) : List VarianceDetail :=
  positions.map (fun pos =>
    { component := pos.asset_id,
      cpu_value := pos.pos_market_value_base,
      incumbent_value := pos.pos_market_value_base,
      variance_absolute := 0,
      variance_relative := 0,
      is_material := false })

/-- Result shape of `L2SubLedgerAgent._analyze_position`. -/
structure PositionAnalysis where
  summary : String
  confidence : ℚ
  action : String
  specialist_needed : Option String
deriving DecidableEq

/-- Source `L2SubLedgerAgent._analyze_position`: flag the Pricing specialist for
any non-zero variance; confidence 0.75 when the Reasoner call succeeds, 0.60
on its fallback. -/
def analyze_position (llm_ok : Bool) (pos : BreakingPosition) : PositionAnalysis :=
  let specialist : Option String :=
    if pos.variance_absolute ≠ 0 then some "PricingAgent" else none
  if llm_ok then
    { summary := "LLM position analysis", confidence := 75 / 100,
      action := "Dispatch to L3 Transaction Agent", specialist_needed := specialist }
  else
    { summary := "LLM analysis unavailable, proceeding with rule-based analysis",
      confidence := 60 / 100,
      action := "Dispatch to L3 Transaction Agent", specialist_needed := specialist }

/-- The breaking-position dict built in `L2SubLedgerAgent.analyze`. -/
def breaking_position_of (v : VarianceDetail) : BreakingPosition :=
  { asset_id := v.component, variance_absolute := v.variance_absolute,
    variance_relative := v.variance_relative, cpu_value := v.cpu_value,
    incumbent_value := v.incumbent_value }

/-- The per-position L2 finding of `L2SubLedgerAgent.analyze`. -/
def l2_finding (pos : BreakingPosition) (analysis : PositionAnalysis) : AgentFinding :=
  { agent_name := "L2_SubLedger_Agent", level := "L2_SUBLEDGER",
    description := "Position break: " ++ pos.asset_id ++ ". " ++ analysis.summary,
    evidence := [("asset_id", pos.asset_id)],
    confidence := analysis.confidence,
    recommended_action := analysis.action }

/-- One iteration of the breaking-position loop in
`L2SubLedgerAgent.analyze`: emit the position finding, then add the needed
specialist to the worklist unless it is already present. -/
def l2_process_position (llm_ok : Bool) (s : AgentState) (pos : BreakingPosition) :
    AgentState :=
  let analysis := analyze_position llm_ok pos
  let f := l2_finding pos analysis
  let s1 := AgentState.add_finding { s with l2_findings := s.l2_findings ++ [f] } f
  match analysis.specialist_needed with
  | some sp =>
    if sp ∈ s1.specialists_invoked then s1
    else { s1 with specialists_invoked := s1.specialists_invoked ++ [sp] }
  | none => s1

/-- The L2 summary finding of `L2SubLedgerAgent.analyze` (confidence 0.85). -/
def l2_summary (specialists : List String) : AgentFinding :=
  { agent_name := "L2_SubLedger_Agent", level := "L2_SUBLEDGER",
    description := "Sub-ledger analysis summary. Specialists needed: " ++
      String.intercalate ", " specialists,
    evidence := [],
    confidence := 85 / 100,
    recommended_action := "Dispatch to L3 and/or Specialist Agents" }

/-- Source `workflow.py` `l2_subledger_node` → `L2SubLedgerAgent.analyze`. -/
def l2_subledger_node (ext : ExternalData) (s : AgentState) : AgentState :=
  let s1 := { s with phase := AnalysisPhase.L2_SUBLEDGER_ANALYSIS }
  match s1.break_alert with
  | none => s1
  | some _ =>
    let position_variances := compare_positions ext.positions
    let breaking :=
      (position_variances.filter (fun v => v.is_material)).map breaking_position_of
    let s2 := { s1 with position_variances := position_variances,
                        breaking_positions := breaking }
    let s3 := breaking.foldl (l2_process_position ext.llm_position_ok) s2
    let f := l2_summary s3.specialists_invoked
    AgentState.add_finding { s3 with l2_findings := s3.l2_findings ++ [f] } f

/-- The per-orphan L3 finding of `L3TransactionAgent.analyze` (confidence
0.90). -/
def orphan_finding (asset_id : String) (orphan : OrphanRecord) : AgentFinding :=
  { agent_name := "L3_Transaction_Agent", level := "L3_TRANSACTION",
    description := "Orphan transaction: " ++ orphan.transaction_id ++ " (" ++
      orphan.trans_code ++ ") for " ++ asset_id ++ " - present in " ++
      orphan.system ++ " only.",
    evidence := [("transaction_id", orphan.transaction_id),
                 ("trans_code", orphan.trans_code),
                 ("trade_date", orphan.trade_date),
                 ("system", orphan.system)],
    confidence := 90 / 100,
    recommended_action := recommend_orphan_action orphan }

/-- The per-difference L3 finding of `L3TransactionAgent.analyze`
(confidence 0.85). -/
def diff_finding (diff : DiffRecord) : AgentFinding :=
  { agent_name := "L3_Transaction_Agent", level := "L3_TRANSACTION",
    description := "Amount difference on matched transaction: " ++
      diff.transaction_id ++ " (" ++ diff.trans_code ++ ")",
    evidence := [("transaction_id", diff.transaction_id),
                 ("trans_code", diff.trans_code)],
    confidence := 85 / 100,
    recommended_action := recommend_diff_action diff }

/-- One corporate-action finding of
`L3TransactionAgent._check_corporate_actions` (confidence 0.70). -/
def ca_finding (asset_id : String) (txn : Txn) : AgentFinding :=
  { agent_name := "L3_Transaction_Agent", level := "L3_TRANSACTION",
    description := "Corporate action detected: " ++ txn.trans_code ++
      " for " ++ asset_id ++ " on " ++ txn.trade_date ++
      ". Requires Corporate Action Agent validation.",
    evidence := [("transaction_id", txn.transaction_id),
                 ("trans_code", txn.trans_code),
                 ("asset_id", asset_id)],
    confidence := 70 / 100,
    recommended_action := "Invoke Corporate Action Specialist Agent" }

/-- Source `L3TransactionAgent._check_corporate_actions`: one finding per
transaction whose code is in the corporate-action code set. -/
def check_corporate_actions (asset_id : String) (transactions : List Txn) :
    List AgentFinding :=
  (transactions.filter (fun t => t.trans_code ∈ ca_codes)).map (ca_finding asset_id)

/-- One iteration of the breaking-position loop in
`L3TransactionAgent.analyze`: match the asset's transactions, extend the
match/orphan/difference collections, emit orphan and difference findings,
then append `CorporateActionAgent` to the worklist (unguarded in the
source) whenever corporate-action findings exist. -/
def l3_process_position (ext : ExternalData) (s : AgentState)
    (pos : BreakingPosition) : AgentState :=
  let txns := ext.transactions pos.asset_id
  let res := match_transactions_stage txns
  let s1 := { s with transaction_matches := s.transaction_matches ++ res.1,
                     orphan_transactions := s.orphan_transactions ++ res.2.1,
                     amount_differences := s.amount_differences ++ res.2.2 }
  let ofs := res.2.1.map (orphan_finding pos.asset_id)
  let dfs := res.2.2.map diff_finding
  let cfs := check_corporate_actions pos.asset_id txns
  let s2 := { s1 with l3_findings := s1.l3_findings ++ ofs ++ dfs,
                      all_findings := s1.all_findings ++ ofs ++ dfs,
                      step_count := s1.step_count + ofs.length + dfs.length }
  if cfs = [] then s2
  else
    { s2 with specialists_invoked := s2.specialists_invoked ++ ["CorporateActionAgent"],
              l3_findings := s2.l3_findings ++ cfs,
              all_findings := s2.all_findings ++ cfs,
              step_count := s2.step_count + cfs.length }

/-- The L3 summary finding of `L3TransactionAgent.analyze` (confidence
0.85). -/
def l3_summary : AgentFinding :=
  { agent_name := "L3_Transaction_Agent", level := "L3_TRANSACTION",
    description := "Transaction forensics complete.",
    evidence := [],
    confidence := 85 / 100,
    recommended_action := "Dispatch to Pattern Agent for historical matching" }

/-- Source `workflow.py` `l3_transaction_node` → `L3TransactionAgent.analyze`. -/
def l3_transaction_node (ext : ExternalData) (s : AgentState) : AgentState :=
  let s1 := { s with phase := AnalysisPhase.L3_TRANSACTION_ANALYSIS }
  match s1.break_alert with
  | none => s1
  | some _ =>
    let s2 := s1.breaking_positions.foldl (l3_process_position ext) s1
    AgentState.add_finding { s2 with l3_findings := s2.l3_findings ++ [l3_summary] }
      l3_summary

/-! ## Specialist agents (`specialist_agents.py`) -/

/-- Append one specialist finding to both the specialist bucket and the
aggregate. -/
def add_specialist_finding (s : AgentState) (f : AgentFinding) : AgentState :=
  AgentState.add_finding { s with specialist_findings := s.specialist_findings ++ [f] } f

/-- Source `PricingAgent.analyze`: one finding per breaking position (confidence
0.80, or 0.65 on the Reasoner fallback). -/
def pricing_agent_node (ext : ExternalData) (s : AgentState) : AgentState :=
  (s.breaking_positions.map (fun pos =>
    ({ agent_name := "PricingAgent", level := "SPECIALIST_PRICING",
       description := "Pricing analysis for " ++ pos.asset_id,
       evidence := [("asset_id", pos.asset_id)],
       confidence := if ext.llm_pricing_ok then 80 / 100 else 65 / 100,
       recommended_action := if ext.llm_pricing_ok then
         "Verify pricing sources and snap times between systems"
       else "Manual pricing source comparison required" } : AgentFinding))).foldl
    add_specialist_finding s

/-- Whether one character list starts with another. -/
def starts_with_chars : List Char → List Char → Bool
  | [], _ => true
  | _ :: _, [] => false
  | a :: as, b :: bs => a = b && starts_with_chars as bs

/-- Python's `needle in hay` substring test, character-wise. -/
def contains_chars (needle : List Char) : List Char → Bool
  | [] => needle.isEmpty
  | hay@(_ :: bs) => starts_with_chars needle hay || contains_chars needle bs

/-- The CA-relevance filter of `CorporateActionAgent.analyze`: the L3
finding mentions a corporate action or carries a corporate-action
transaction code in its evidence. -/
def is_ca_relevant (f : AgentFinding) : Bool :=
  contains_chars "corporate action".data (py_lower f.description).data ||
    (match f.evidence.lookup "trans_code" with
     | some code => decide (code ∈ ca_codes)
     | none => false)

/-- Source `CorporateActionAgent.analyze`: one validation finding per CA-relevant
L3 finding (confidence 0.75, or 0.50 on the Reasoner fallback). -/
def ca_agent_node (ext : ExternalData) (s : AgentState) : AgentState :=
  ((s.l3_findings.filter is_ca_relevant).map (fun f =>
    ({ agent_name := "CorporateActionAgent", level := "SPECIALIST_CA",
       description := "Corporate action validation for " ++
         ((f.evidence.lookup "asset_id").getD ""),
       evidence := f.evidence,
       confidence := if ext.llm_ca_ok then 75 / 100 else 50 / 100,
       recommended_action := if ext.llm_ca_ok then
         "Compare CA processing parameters between systems"
       else "Manual CA event comparison required" } : AgentFinding))).foldl
    add_specialist_finding s

/-- Source `AccrualAgent._find_accrual_positions`: the breaking positions, kept
only when the run's primary driver is income-related. -/
def find_accrual_positions (s : AgentState) : List BreakingPosition :=
  s.breaking_positions.filter (fun _ =>
    match s.primary_driver with
    | some d => d.value = "INCOME_DRIVEN" ∨ d.value = "MULTI_FACTOR"
    | none => False)

/-- Source `AccrualAgent.analyze`: one finding per accrual-relevant position
(confidence 0.85, or 0.60 on the Reasoner fallback). -/
def accrual_agent_node (ext : ExternalData) (s : AgentState) : AgentState :=
  match s.break_alert with
  | none => s
  | some _ =>
    ((find_accrual_positions s).map (fun pos =>
      ({ agent_name := "AccrualAgent", level := "SPECIALIST_ACCRUAL",
         description := "Accrual analysis for " ++ pos.asset_id,
         evidence := [("asset_id", pos.asset_id)],
         confidence := if ext.llm_accrual_ok then 85 / 100 else 60 / 100,
         recommended_action := if ext.llm_accrual_ok then
           "Verify day count convention in ElectronDSL configuration"
         else "Manual accrual parameter comparison required" } : AgentFinding))).foldl
      add_specialist_finding s

/-- Source `FXAgent.analyze`: one finding per breaking position with non-zero
variance (confidence 0.75, or 0.55 on the Reasoner fallback). -/
def fx_agent_node (ext : ExternalData) (s : AgentState) : AgentState :=
  match s.break_alert with
  | none => s
  | some _ =>
    ((s.breaking_positions.filter (fun pos => pos.variance_absolute ≠ 0)).map (fun pos =>
      ({ agent_name := "FXAgent", level := "SPECIALIST_FX",
         description := "FX analysis for " ++ pos.asset_id,
         evidence := [("asset_id", pos.asset_id)],
         confidence := if ext.llm_fx_ok then 75 / 100 else 55 / 100,
         recommended_action := if ext.llm_fx_ok then
           "Compare FX rate sources and snap times"
         else "Manual FX rate comparison required" } : AgentFinding))).foldl
      add_specialist_finding s

/-- Source `workflow.py` `specialist_router_node`: set the SPECIALIST phase, then
dispatch each invoked specialist in worklist order. -/
def specialist_router_node (ext : ExternalData) (s : AgentState) : AgentState :=
  let s1 := { s with phase := AnalysisPhase.SPECIALIST_ANALYSIS }
  s1.specialists_invoked.foldl (fun st name =>
    if name = "PricingAgent" then pricing_agent_node ext st
    else if name = "CorporateActionAgent" then ca_agent_node ext st
    else if name = "AccrualAgent" then accrual_agent_node ext st
    else if name = "FXAgent" then fx_agent_node ext st
    else st) s1

/-! ## Pattern agent (`specialist_agents.py` `PatternAgent`) -/

/-- One matched-pattern finding of `PatternAgent.analyze` (confidence is the
pattern's average confidence). -/
def pattern_finding (p : BreakPattern) : AgentFinding :=
  { agent_name := "PatternAgent", level := "PATTERN_MATCH",
    description := "Matched historical pattern: '" ++ p.pattern_name ++ "'",
    evidence := [("pattern_id", p.pattern_id)],
    confidence := p.avg_confidence,
    recommended_action := p.resolution_template }

/-- The similar-breaks finding of `PatternAgent.analyze` (confidence 0.80). -/
def similar_breaks_finding (breaks : List SimilarBreak) : AgentFinding :=
  { agent_name := "PatternAgent", level := "PATTERN_MATCH",
    description := "Found similar historical breaks. Most common resolution: " ++
      (match breaks with
       | b :: _ => b.resolution_type
       | [] => "N/A"),
    evidence := [],
    confidence := 80 / 100,
    recommended_action := "Review similar break resolutions for guidance" }

/-- The novel-pattern finding of `PatternAgent.analyze` (confidence 0.50). -/
def novel_pattern_finding : AgentFinding :=
  { agent_name := "PatternAgent", level := "PATTERN_MATCH",
    description := "No matching historical patterns found. This appears to be a novel break type.",
    evidence := [],
    confidence := 50 / 100,
    recommended_action := "Escalate to human analyst for novel pattern investigation" }

/-- Source `workflow.py` `pattern_match_node` → `PatternAgent.analyze`: store the
matched patterns and similar breaks, emit one finding per matched pattern, a
similar-breaks finding when any exist, and the novel-pattern finding when
neither exists. -/
def pattern_match_node (ext : ExternalData) (s : AgentState) : AgentState :=
  let s1 := { s with phase := AnalysisPhase.PATTERN_MATCHING }
  match s1.break_alert with
  | none => s1
  | some _ =>
    let s2 := { s1 with matched_patterns := ext.patterns,
                        historical_similar_breaks := ext.similar_breaks }
    let fs := ext.patterns.map pattern_finding ++
      (if ext.similar_breaks ≠ [] then [similar_breaks_finding ext.similar_breaks] else []) ++
      (if ext.patterns = [] ∧ ext.similar_breaks = [] then [novel_pattern_finding] else [])
    { s2 with pattern_findings := s2.pattern_findings ++ fs,
              all_findings := s2.all_findings ++ fs,
              step_count := s2.step_count + fs.length }

/-- Source `workflow.py` `supervisor_finalize_node` →
`SupervisorAgent._finalize_analysis`: aggregate root causes, compute the
overall confidence, run the escalation check with the settings thresholds,
and land on ESCALATED or COMPLETED. -/
def supervisor_finalize_node (s : AgentState) : AgentState :=
  let s1 := { s with phase := AnalysisPhase.REPORT_GENERATION }
  let s2 := { s1 with root_causes := aggregate_root_causes s1 }
  let s3 := { s2 with overall_confidence := calculate_confidence s2 }
  let s4 := check_escalation CONFIDENCE_ESCALATION_THRESHOLD CRITICAL_BREAK_THRESHOLD s3
  if s4.should_escalate then { s4 with phase := AnalysisPhase.ESCALATED }
  else { s4 with phase := AnalysisPhase.COMPLETED }

/-! ## Conditional routing (`workflow.py`) -/

/-- Source `workflow.py` `should_continue_to_l1`. -/
def should_continue_to_l1 (s : AgentState) : String :=
  match s.nav_variance with
  | none => "supervisor_finalize"
  | some v => if v.is_material then "l1_gl" else "supervisor_finalize"

/-- Source `workflow.py` `should_continue_to_l2`. -/
def should_continue_to_l2 (s : AgentState) : String :=
  if s.breaking_gl_buckets = [] then "pattern_match" else "l2_subledger"

/-- Source `workflow.py` `should_continue_to_l3`. -/
def should_continue_to_l3 (s : AgentState) : String :=
  if s.breaking_positions = [] then
    if s.specialists_invoked ≠ [] then "specialist_router" else "pattern_match"
  else "l3_transaction"

/-- Source `workflow.py` `should_invoke_specialists`. -/
def should_invoke_specialists (s : AgentState) : String :=
  if s.specialists_invoked ≠ [] then "specialist_router" else "pattern_match"

/-! ## The compiled workflow (`workflow.py` `build_reconciliation_workflow`
and `run_reconciliation_analysis`) -/

/-- The initial state of `run_reconciliation_analysis`:
`AgentState(break_alert=break_alert)`. -/
def init_state (break_alert : Option BreakAlert) : AgentState :=
  { AgentState.initial with break_alert := break_alert }

/-- The state after the `supervisor_init` node. -/
def stage1 (break_alert : Option BreakAlert) : AgentState :=
  supervisor_init_node (init_state break_alert)

/-- The state after the `l0_nav` node (the edge supervisor_init → l0_nav is
unconditional in the source graph). -/
def stage2 (ext : ExternalData) (break_alert : Option BreakAlert) : AgentState :=
  l0_nav_node ext (stage1 break_alert)

/-- The state after the `l1_gl` node, on runs that reach it. -/
def stage3 (ext : ExternalData) (break_alert : Option BreakAlert) : AgentState :=
  l1_gl_node ext (stage2 ext break_alert)

/-- The state after the `l2_subledger` node, on runs that reach it. -/
def stage4 (ext : ExternalData) (break_alert : Option BreakAlert) : AgentState :=
  l2_subledger_node ext (stage3 ext break_alert)

/-- The state after the `l3_transaction` node, on runs that reach it. -/
def stage5 (ext : ExternalData) (break_alert : Option BreakAlert) : AgentState :=
  l3_transaction_node ext (stage4 ext break_alert)

/-- Source `run_reconciliation_analysis`: build the initial state from the alert
and run the graph: supervisor_init → l0_nav → [material?] → l1_gl →
[breaking buckets?] → l2_subledger → [breaking positions?] →
l3_transaction → [specialists?] → specialist_router → pattern_match →
supervisor_finalize. -/
def run_reconciliation_analysis (ext : ExternalData)
    (break_alert : Option BreakAlert) : AgentState :=
  if should_continue_to_l1 (stage2 ext break_alert) = "l1_gl" then
    if should_continue_to_l2 (stage3 ext break_alert) = "l2_subledger" then
      if should_continue_to_l3 (stage4 ext break_alert) = "l3_transaction" then
        if should_invoke_specialists (stage5 ext break_alert) = "specialist_router" then
          supervisor_finalize_node
            (pattern_match_node ext (specialist_router_node ext (stage5 ext break_alert)))
        else
          supervisor_finalize_node (pattern_match_node ext (stage5 ext break_alert))
      else if should_continue_to_l3 (stage4 ext break_alert) = "specialist_router" then
        supervisor_finalize_node
          (pattern_match_node ext (specialist_router_node ext (stage4 ext break_alert)))
      else
        supervisor_finalize_node (pattern_match_node ext (stage4 ext break_alert))
    else
      supervisor_finalize_node (pattern_match_node ext (stage3 ext break_alert))
  else
    supervisor_finalize_node (stage2 ext break_alert)

/-- The sequence of states produced along the path the workflow takes,
starting with the initial state and ending with the terminal state of
`run_reconciliation_analysis`. -/
def workflow_trace (ext : ExternalData) (break_alert : Option BreakAlert) :
    List AgentState :=
  if should_continue_to_l1 (stage2 ext break_alert) = "l1_gl" then
    if should_continue_to_l2 (stage3 ext break_alert) = "l2_subledger" then
      if should_continue_to_l3 (stage4 ext break_alert) = "l3_transaction" then
        if should_invoke_specialists (stage5 ext break_alert) = "specialist_router" then
          [init_state break_alert, stage1 break_alert, stage2 ext break_alert,
           stage3 ext break_alert, stage4 ext break_alert, stage5 ext break_alert,
           specialist_router_node ext (stage5 ext break_alert),
           pattern_match_node ext (specialist_router_node ext (stage5 ext break_alert)),
           supervisor_finalize_node
             (pattern_match_node ext (specialist_router_node ext (stage5 ext break_alert)))]
        else
          [init_state break_alert, stage1 break_alert, stage2 ext break_alert,
           stage3 ext break_alert, stage4 ext break_alert, stage5 ext break_alert,
           pattern_match_node ext (stage5 ext break_alert),
           supervisor_finalize_node (pattern_match_node ext (stage5 ext break_alert))]
      else if should_continue_to_l3 (stage4 ext break_alert) = "specialist_router" then
        [init_state break_alert, stage1 break_alert, stage2 ext break_alert,
         stage3 ext break_alert, stage4 ext break_alert,
         specialist_router_node ext (stage4 ext break_alert),
         pattern_match_node ext (specialist_router_node ext (stage4 ext break_alert)),
         supervisor_finalize_node
           (pattern_match_node ext (specialist_router_node ext (stage4 ext break_alert)))]
      else
        [init_state break_alert, stage1 break_alert, stage2 ext break_alert,
         stage3 ext break_alert, stage4 ext break_alert,
         pattern_match_node ext (stage4 ext break_alert),
         supervisor_finalize_node (pattern_match_node ext (stage4 ext break_alert))]
    else
      [init_state break_alert, stage1 break_alert, stage2 ext break_alert,
       stage3 ext break_alert, pattern_match_node ext (stage3 ext break_alert),
       supervisor_finalize_node (pattern_match_node ext (stage3 ext break_alert))]
  else
    [init_state break_alert, stage1 break_alert, stage2 ext break_alert,
     supervisor_finalize_node (stage2 ext break_alert)]

/-! ## Spec-side definitions (for refinement comparisons only) -/

/-- Deduplication by description key keeping the first occurrence, written
after the spec's "deduplicate by the first 100 characters of the lower-cased
description". -/
def dedup_by_key : List AgentFinding → List String → List AgentFinding
  | [], _ => []
  | f :: rest, seen =>
    if desc_key f ∈ seen then dedup_by_key rest seen
    else f :: dedup_by_key rest (desc_key f :: seen)

/-- The spec's root-cause pipeline, written after its words: "sort all
Findings by descending confidence, drop any with confidence < 0.60,
deduplicate by the first 100 characters of the (lower-cased) description,
keep at most the top 10 survivors, preserving descending-confidence
order". -/
def root_causes_spec (findings : List AgentFinding) : List RootCause :=
  ((dedup_by_key
      ((py_sorted_by_confidence_desc findings).filter
        (fun f => !decide (f.confidence < 60 / 100))) []).map root_cause_of).take 10

/-- The spec's clamp of a confidence value to `[0,1]`. -/
def unit_clamp (x : ℚ) : ℚ := max 0 (min x 1)

/-! ## Concrete inputs for witnesses and counterexamples -/

/-- External data where every collaborator returns its empty/failure
value. -/
def ext0 : ExternalData where
  nav_components := []
  llm_driver_category := ""
  cpu_gl := []
  incumbent_gl := []
  positions := []
  transactions := fun _ => []
  llm_position_ok := true
  patterns := []
  similar_breaks := []
  llm_pricing_ok := true
  llm_ca_ok := true
  llm_accrual_ok := true
  llm_fx_ok := true

/-- The spec's concrete scenario 1 alert: NAV variance $24,500 on a
$204,524,500 NAV, 10,000,000 shares, per-share variance $0.00245 — below
the $0.005 materiality threshold. -/
def c1_alert : BreakAlert where
  break_id := "BRK-2026-02-05-001"
  account := "FUND_ABC"
  share_class := "CLASS_A"
  valuation_dt := "2026-02-05"
  cpu_nav := 204500000
  incumbent_nav := 204524500
  variance_absolute := -24500
  variance_relative := -12 / 100000
  shares_outstanding := 10000000
  nav_per_share_variance := -245 / 100000
  fund_type := some "FIXED_INCOME"
  source_system := none

/-- The spec's concrete scenario 2 CPU-side transaction. -/
def c4_cpu_txn : Txn where
  transaction_id := "CPU-DIV-1"
  trans_code := "DIV"
  trade_date := "2026-02-05"
  amount_base := 1000

/-- The spec's concrete scenario 2 incumbent-side transaction. -/
def c4_inc_txn : Txn where
  transaction_id := "INC-DIV-1"
  trans_code := "DIV"
  trade_date := "2026-02-05"
  amount_base := 1000 + 50 / 100

/-- The spec's concrete scenario 3 findings: confidences
0.95, 0.92, 0.80, 0.60, 0.55 with distinct descriptions, already in
descending order. -/
def c6_sample_findings : List AgentFinding :=
  [{ agent_name := "L1_GL_Agent", level := "L1_GL", description := "cause a",
     evidence := [], confidence := 95 / 100, recommended_action := "act a" },
   { agent_name := "L1_GL_Agent", level := "L1_GL", description := "cause b",
     evidence := [], confidence := 92 / 100, recommended_action := "act b" },
   { agent_name := "L2_SubLedger_Agent", level := "L2_SUBLEDGER", description := "cause c",
     evidence := [], confidence := 80 / 100, recommended_action := "act c" },
   { agent_name := "L3_Transaction_Agent", level := "L3_TRANSACTION", description := "cause d",
     evidence := [], confidence := 60 / 100, recommended_action := "act d" },
   { agent_name := "PatternAgent", level := "PATTERN_MATCH", description := "cause e",
     evidence := [], confidence := 55 / 100, recommended_action := "act e" }]

/-- A CPU-side transaction that matches its incumbent counterpart exactly. -/
def c4_clean_cpu : Txn where
  transaction_id := "CPU-BUY-1"
  trans_code := "BUY"
  trade_date := "2026-02-06"
  amount_base := 500

/-- The incumbent-side counterpart of `c4_clean_cpu`. -/
def c4_clean_inc : Txn where
  transaction_id := "INC-BUY-1"
  trans_code := "BUY"
  trade_date := "2026-02-06"
  amount_base := 500

/-- A MERGER orphan transaction record. -/
def c9_merger_orphan : OrphanRecord where
  transaction_id := "TXN-MERGER-1"
  trans_code := "MERGER"
  trade_date := "2026-02-05"
  amount_base := 2500
  system := "CPU"

/-- The L3/specialist machinery of a state is untouched: no breaking
positions, an empty specialist worklist, and empty L3/specialist/orphan/
difference collections. -/
def no_l3_activity (s : AgentState) : Prop :=
  s.breaking_positions = [] ∧ s.specialists_invoked = [] ∧ s.l3_findings = [] ∧
  s.specialist_findings = [] ∧ s.orphan_transactions = [] ∧ s.amount_differences = []

/-! ## Theorems -/

/-- C3: for every pair of values and the level-bound absolute tolerance the
variance computation returns `variance_absolute = a - b`,
`variance_relative = (a - b) / b` when `b ≠ 0` and exactly `0` when `b = 0`
(the function is total, so no error is possible), and `is_material` holds
iff `|a - b|` strictly exceeds the level's absolute tolerance ($1,000 at the
GL level, $0.005/share at the NAV level). -/
theorem C3_variance_comparator :
    ∀ (cat : String) (a b : ℚ),
      (gl_category_variance cat a b).variance_absolute = a - b ∧
      (b ≠ 0 → (gl_category_variance cat a b).variance_relative = (a - b) / b) ∧
      (b = 0 → (gl_category_variance cat a b).variance_relative = 0) ∧
      ((gl_category_variance cat a b).is_material = true ↔ |a - b| > 1000) ∧
      (∀ alert : BreakAlert,
        ((nav_variance_detail alert).is_material = true ↔
          |alert.nav_per_share_variance| > MATERIALITY_THRESHOLD_ABSOLUTE)) := by
  intro cat a b
  refine ⟨rfl, ?_, ?_, ?_, ?_⟩
  · intro hb
    simp [gl_category_variance, hb]
  · intro hb
    simp [gl_category_variance, hb]
  · simp [gl_category_variance]
  · intro alert
    simp [nav_variance_detail]

/-- Witness for C3 at concrete inputs: the relative variance at
`(a, b) = (3, 2)` and at `(a, b) = (3, 0)`. -/
theorem C3_variance_comparator_witness :
    (gl_category_variance "ASSET" 3 2).variance_relative = (3 - 2) / 2 ∧
    (gl_category_variance "ASSET" 3 0).variance_relative = 0 :=
  ⟨(C3_variance_comparator "ASSET" 3 2).2.1 (by norm_num),
   (C3_variance_comparator "ASSET" 3 0).2.2.1 rfl⟩

/-- C9 counterexample: the claim maps every code of the corporate-action
code set `{SPLIT, SPINOFF, CALL, MAT, MERGER}` to the invoke-CA-specialist
action, but a MERGER orphan gets the manual-investigation action — the
orphan lookup tests only `(SPLIT, SPINOFF, CALL, MAT)` even though `MERGER`
is in the engine's corporate-action code set. -/
theorem C9_counterexample :
    recommend_orphan_action c9_merger_orphan = "Manual investigation required" ∧
    recommend_orphan_action c9_merger_orphan ≠
      "Invoke Corporate Action Agent - CA processing difference likely" ∧
    "MERGER" ∈ ca_codes := by
  refine ⟨rfl, ?_, by simp [ca_codes]⟩
  intro h
  simp [recommend_orphan_action, c9_merger_orphan] at h

/-- C9 (amended): the recommended orphan action is the fixed lookup keyed by
trans_code category — income codes (DIV, INT) map to the check-timing
action, trade codes (BUY, SELL) to the check-feed-completeness action,
the codes SPLIT, SPINOFF, CALL and MAT (but not MERGER) to the
invoke-CA-specialist action, and every other code (MERGER included) to
manual investigation. -/
theorem C9_orphan_action_lookup :
    (∀ orphan : OrphanRecord,
      recommend_orphan_action orphan =
        if orphan.trans_code ∈ (["DIV", "INT"] : List String) then
          "Check income event timing - likely booking date difference"
        else if orphan.trans_code ∈ (["BUY", "SELL"] : List String) then
          "Verify trade feed completeness - may be missing from incumbent"
        else if orphan.trans_code ∈ (["SPLIT", "SPINOFF", "CALL", "MAT"] : List String) then
          "Invoke Corporate Action Agent - CA processing difference likely"
        else "Manual investigation required") ∧
    (∀ orphan : OrphanRecord, orphan.trans_code = "MERGER" →
      recommend_orphan_action orphan = "Manual investigation required") := by
  constructor
  · intro orphan
    simp only [recommend_orphan_action, List.mem_cons, List.mem_singleton,
      List.not_mem_nil, or_false]
  · intro orphan h
    simp [recommend_orphan_action, h]

/-- Witness for C9 (amended) at the concrete MERGER orphan. -/
theorem C9_orphan_action_lookup_witness :
    recommend_orphan_action c9_merger_orphan = "Manual investigation required" :=
  C9_orphan_action_lookup.2 c9_merger_orphan rfl

/-- C8: the escalation check reads only fields it does not write
(`overall_confidence`, `phase`, `break_alert`, `matched_patterns`,
`root_causes`), so a second evaluation on the resulting state reproduces the
same reasons and the same flag, and the flag holds exactly when at least one
reason fired. -/
theorem C8_escalation_idempotent :
    ∀ (ct cn : ℚ) (s : AgentState),
      (check_escalation ct cn (check_escalation ct cn s)).escalation_reasons =
        (check_escalation ct cn s).escalation_reasons ∧
      (check_escalation ct cn (check_escalation ct cn s)).should_escalate =
        (check_escalation ct cn s).should_escalate ∧
      ((check_escalation ct cn s).should_escalate = true ↔
        (check_escalation ct cn s).escalation_reasons ≠ []) := by
  intro ct cn s
  refine ⟨?_, ?_, ?_⟩
  · simp [check_escalation, escalation_reason_list]
  · simp [check_escalation, escalation_reason_list]
  · simp [check_escalation, List.length_pos]

/-- Every level weight is at least 0.10, hence positive. -/
lemma level_weight_pos (level : String) : 0 < level_weight level := by
  unfold level_weight
  split_ifs <;> norm_num

/-- The weight total over a nonempty finding list is positive. -/
lemma weight_sum_pos (l : List AgentFinding) (h : l ≠ []) :
    0 < (l.map (fun f => level_weight f.level)).sum := by
  cases l with
  | nil => exact absurd rfl h
  | cons f rest =>
    simp only [List.map_cons, List.sum_cons]
    have h1 : 0 < level_weight f.level := level_weight_pos f.level
    have h2 : 0 ≤ (rest.map (fun f => level_weight f.level)).sum := by
      apply List.sum_nonneg
      intro x hx
      obtain ⟨g, _, rfl⟩ := List.mem_map.mp hx
      exact le_of_lt (level_weight_pos g.level)
    linarith

/-- The weighted confidence total is nonnegative when all confidences
are. -/
lemma weighted_sum_nonneg (l : List AgentFinding)
    (h : ∀ f ∈ l, 0 ≤ f.confidence ∧ f.confidence ≤ 1) :
    0 ≤ (l.map (fun f => f.confidence * level_weight f.level)).sum := by
  apply List.sum_nonneg
  intro x hx
  obtain ⟨g, hg, rfl⟩ := List.mem_map.mp hx
  exact mul_nonneg (h g hg).1 (le_of_lt (level_weight_pos g.level))

/-- The weighted confidence total is at most the weight total when all
confidences are at most 1. -/
lemma weighted_sum_le (l : List AgentFinding)
    (h : ∀ f ∈ l, 0 ≤ f.confidence ∧ f.confidence ≤ 1) :
    (l.map (fun f => f.confidence * level_weight f.level)).sum ≤
      (l.map (fun f => level_weight f.level)).sum := by
  apply List.sum_le_sum
  intro f hf
  exact mul_le_of_le_one_left (le_of_lt (level_weight_pos f.level)) (h f hf).2

/-- C5: when every finding confidence lies in `[0,1]`, the overall
confidence is exactly the level-weighted average of all findings clamped to
`[0,1]`, it always lies in `[0,1]`, and it is exactly 0 on an empty finding
set. -/
theorem C5_confidence_aggregation :
    ∀ s : AgentState,
      (∀ f ∈ s.all_findings, 0 ≤ f.confidence ∧ f.confidence ≤ 1) →
      calculate_confidence s =
        unit_clamp
          ((s.all_findings.map (fun f => f.confidence * level_weight f.level)).sum /
            (s.all_findings.map (fun f => level_weight f.level)).sum) ∧
      0 ≤ calculate_confidence s ∧ calculate_confidence s ≤ 1 ∧
      (s.all_findings = [] → calculate_confidence s = 0) := by
  intro s h
  by_cases hempty : s.all_findings = []
  · refine ⟨?_, ?_, ?_, fun _ => ?_⟩ <;>
      simp [calculate_confidence, unit_clamp, hempty]
  · have hwpos := weight_sum_pos s.all_findings hempty
    have hwnn := weighted_sum_nonneg s.all_findings h
    have hwle := weighted_sum_le s.all_findings h
    have hratio_nonneg :
        0 ≤ (s.all_findings.map (fun f => f.confidence * level_weight f.level)).sum /
          (s.all_findings.map (fun f => level_weight f.level)).sum :=
      div_nonneg hwnn (le_of_lt hwpos)
    have hratio_le_one :
        (s.all_findings.map (fun f => f.confidence * level_weight f.level)).sum /
          (s.all_findings.map (fun f => level_weight f.level)).sum ≤ 1 :=
      (div_le_one hwpos).mpr hwle
    have hcalc : calculate_confidence s =
        (s.all_findings.map (fun f => f.confidence * level_weight f.level)).sum /
          (s.all_findings.map (fun f => level_weight f.level)).sum := by
      simp only [calculate_confidence, hempty, if_false, ne_eq]
      rw [if_neg (ne_of_gt hwpos), min_eq_left hratio_le_one]
    refine ⟨?_, ?_, ?_, fun habs => absurd habs hempty⟩
    · rw [hcalc]
      unfold unit_clamp
      rw [min_eq_left hratio_le_one, max_eq_right hratio_nonneg]
    · rw [hcalc]; exact hratio_nonneg
    · rw [hcalc]; exact hratio_le_one

/-- Witness for C5 at a concrete one-finding state. -/
theorem C5_confidence_aggregation_witness :
    0 ≤ calculate_confidence
        { AgentState.initial with all_findings := [l3_summary] } ∧
      calculate_confidence
        { AgentState.initial with all_findings := [l3_summary] } ≤ 1 := by
  have h := C5_confidence_aggregation
    { AgentState.initial with all_findings := [l3_summary] }
    (by
      intro f hf
      simp only [List.mem_singleton] at hf
      subst hf
      constructor <;> norm_num [l3_summary])
  exact ⟨h.2.1, h.2.2.1⟩

instance : IsTotal AgentFinding (fun a b => b.confidence ≤ a.confidence) :=
  ⟨fun a b => le_total b.confidence a.confidence⟩

instance : IsTrans AgentFinding (fun a b => b.confidence ≤ a.confidence) :=
  ⟨fun _ _ _ hab hbc => le_trans hbc hab⟩

/-- The stable descending sort produces a descending-confidence list. -/
lemma sorted_desc_pairwise (l : List AgentFinding) :
    List.Pairwise (fun a b : AgentFinding => b.confidence ≤ a.confidence)
      (py_sorted_by_confidence_desc l) :=
  List.sorted_insertionSort (fun a b : AgentFinding => b.confidence ≤ a.confidence) l

/-- The aggregation loop of the source equals the spec pipeline
filter-then-dedup, for any `seen` set. -/
lemma root_cause_loop_eq (l : List AgentFinding) (seen : List String) :
    root_cause_loop l seen =
      (dedup_by_key (l.filter (fun f => !decide (f.confidence < 60 / 100))) seen).map
        root_cause_of := by
  induction l generalizing seen with
  | nil => rfl
  | cons f rest ih =>
    by_cases hc : f.confidence < 60 / 100
    · simp [root_cause_loop, List.filter_cons, hc, ih]
    · by_cases hk : desc_key f ∈ seen
      · simp [root_cause_loop, List.filter_cons, hc, hk, dedup_by_key, ih]
      · simp [root_cause_loop, List.filter_cons, hc, hk, dedup_by_key, ih]

/-- Deduplication returns a sublist of its input. -/
lemma dedup_by_key_sublist (l : List AgentFinding) (seen : List String) :
    (dedup_by_key l seen).Sublist l := by
  induction l generalizing seen with
  | nil => simp [dedup_by_key]
  | cons f rest ih =>
    by_cases hk : desc_key f ∈ seen
    · simp only [dedup_by_key, if_pos hk]
      exact (ih seen).trans (List.sublist_cons_self f rest)
    · simp only [dedup_by_key, if_neg hk]
      exact (ih (desc_key f :: seen)).cons₂ f

/-- C6: root-cause extraction equals the spec pipeline (stable descending
sort, drop `< 0.60`, dedup by the first 100 chars of the lower-cased
description, top 10), its output is never longer than 10 and is in
descending-confidence order, and on the five findings with confidences
0.95, 0.92, 0.80, 0.60, 0.55 it keeps exactly the first four in that
order. -/
theorem C6_root_cause_extraction :
    (∀ s : AgentState, aggregate_root_causes s = root_causes_spec s.all_findings) ∧
    (∀ s : AgentState, (aggregate_root_causes s).length ≤ 10) ∧
    (∀ s : AgentState,
      List.Pairwise (fun a b : RootCause => b.confidence ≤ a.confidence)
        (aggregate_root_causes s)) ∧
    aggregate_root_causes { AgentState.initial with all_findings := c6_sample_findings } =
      (c6_sample_findings.take 4).map root_cause_of := by
  have key : ∀ s : AgentState, aggregate_root_causes s = root_causes_spec s.all_findings := by
    intro s
    unfold aggregate_root_causes root_causes_spec
    rw [root_cause_loop_eq]
  refine ⟨key, ?_, ?_, ?_⟩
  · intro s
    rw [aggregate_root_causes, List.length_take]
    exact min_le_left _ _
  · intro s
    unfold aggregate_root_causes
    have hsorted := sorted_desc_pairwise s.all_findings
    have hdedup :
        (root_cause_loop (py_sorted_by_confidence_desc s.all_findings) []).Pairwise
          (fun a b : RootCause => b.confidence ≤ a.confidence) := by
      rw [root_cause_loop_eq]
      apply List.Pairwise.map root_cause_of
      · intro a b hab
        exact hab
      · exact List.Pairwise.sublist
          ((dedup_by_key_sublist _ _).trans (List.filter_sublist _)) hsorted
    exact List.Pairwise.sublist (List.take_sublist _ _) hdedup
  · rw [key]
    have hsort : py_sorted_by_confidence_desc c6_sample_findings = c6_sample_findings := by
      norm_num [py_sorted_by_confidence_desc, c6_sample_findings, List.insertionSort,
        List.orderedInsert]
    have hfil : c6_sample_findings.filter (fun f => !decide (f.confidence < 60 / 100)) =
        c6_sample_findings.take 4 := by
      norm_num [c6_sample_findings, List.filter, List.take]
    have hded : dedup_by_key (c6_sample_findings.take 4) [] = c6_sample_findings.take 4 := by
      rfl
    show root_causes_spec c6_sample_findings = _
    rw [root_causes_spec, hsort, hfil, hded]
    rw [List.take_of_length_le]
    simp [c6_sample_findings]

/-- C4: two transactions match iff they share code and trade date and their
amounts are within `max(|amount_1| * 0.001, 1.0)`; a matched pair differing
by more than $0.01 is classified as an amount-difference carrying its delta,
a matched pair within $0.01 as a clean match, an unmatched transaction as a
CPU orphan; in particular the DIV pair `(1000.00, 1000.50)` is classified as
an amount-difference with delta `-0.50`, not as orphans. -/
theorem C4_transaction_match_classification :
    (∀ t1 t2 : Txn, fuzzy_match t1 t2 = true ↔
      (t1.trans_code = t2.trans_code ∧ t1.trade_date = t2.trade_date ∧
        |t1.amount_base - t2.amount_base| ≤ max (|t1.amount_base| * (1 / 1000)) 1)) ∧
    (∀ t1 t2 : Txn, fuzzy_match t1 t2 = true →
      ((1 / 100 < |t1.amount_base - t2.amount_base| →
        match_transactions [t1] [t2] =
          ([], [],
           [{ transaction_id := t1.transaction_id, trans_code := t1.trans_code,
              trade_date := t1.trade_date, cpu_amount := t1.amount_base,
              incumbent_amount := t2.amount_base,
              difference := t1.amount_base - t2.amount_base }])) ∧
       (|t1.amount_base - t2.amount_base| ≤ 1 / 100 →
        match_transactions [t1] [t2] =
          ([{ transaction_id := t1.transaction_id, trans_code := t1.trans_code,
              trade_date := t1.trade_date, cpu_amount := t1.amount_base,
              incumbent_amount := t2.amount_base }], [], [])))) ∧
    (∀ t1 t2 : Txn, fuzzy_match t1 t2 = false →
      match_transactions [t1] [t2] =
        ([], [{ transaction_id := t1.transaction_id, trans_code := t1.trans_code,
                trade_date := t1.trade_date, amount_base := t1.amount_base,
                system := "CPU" }], [])) ∧
    match_transactions [c4_cpu_txn] [c4_inc_txn] =
      ([], [],
       [{ transaction_id := "CPU-DIV-1", trans_code := "DIV",
          trade_date := "2026-02-05", cpu_amount := 1000,
          incumbent_amount := 1000 + 50 / 100, difference := -(50 / 100) }]) := by
  have part1 : ∀ t1 t2 : Txn, fuzzy_match t1 t2 = true ↔
      (t1.trans_code = t2.trans_code ∧ t1.trade_date = t2.trade_date ∧
        |t1.amount_base - t2.amount_base| ≤ max (|t1.amount_base| * (1 / 1000)) 1) := by
    intro t1 t2
    by_cases hc : t1.trans_code = t2.trans_code
    · by_cases hd : t1.trade_date = t2.trade_date
      · by_cases ha : |t1.amount_base - t2.amount_base| ≤
            max (|t1.amount_base| * (1 / 1000)) 1
        · simp [fuzzy_match, hc, hd, ha, not_lt.mpr ha]
        · simp [fuzzy_match, hc, hd, ha, not_le.mp ha]
      · simp [fuzzy_match, hd]
    · simp [fuzzy_match, hc]
  have part2 : ∀ t1 t2 : Txn, fuzzy_match t1 t2 = true →
      ((1 / 100 < |t1.amount_base - t2.amount_base| →
        match_transactions [t1] [t2] =
          ([], [],
           [{ transaction_id := t1.transaction_id, trans_code := t1.trans_code,
              trade_date := t1.trade_date, cpu_amount := t1.amount_base,
              incumbent_amount := t2.amount_base,
              difference := t1.amount_base - t2.amount_base }])) ∧
       (|t1.amount_base - t2.amount_base| ≤ 1 / 100 →
        match_transactions [t1] [t2] =
          ([{ transaction_id := t1.transaction_id, trans_code := t1.trans_code,
              trade_date := t1.trade_date, cpu_amount := t1.amount_base,
              incumbent_amount := t2.amount_base }], [], []))) := by
    intro t1 t2 hm
    constructor
    · intro hgt
      simp [match_transactions, classify_txn, List.find?, hm, hgt]
      linarith
    · intro hle
      simp [match_transactions, classify_txn, List.find?, hm, not_lt.mpr hle]
      linarith
  have part3 : ∀ t1 t2 : Txn, fuzzy_match t1 t2 = false →
      match_transactions [t1] [t2] =
        ([], [{ transaction_id := t1.transaction_id, trans_code := t1.trans_code,
                trade_date := t1.trade_date, amount_base := t1.amount_base,
                system := "CPU" }], []) := by
    intro t1 t2 hm
    simp [match_transactions, classify_txn, List.find?, hm]
  refine ⟨part1, part2, part3, ?_⟩
  have hd : c4_cpu_txn.amount_base - c4_inc_txn.amount_base = -(1 / 2) := by
    norm_num [c4_cpu_txn, c4_inc_txn]
  have habs : |c4_cpu_txn.amount_base - c4_inc_txn.amount_base| = 1 / 2 := by
    rw [hd, abs_neg]
    exact abs_of_pos (by norm_num)
  have h1000 : |c4_cpu_txn.amount_base| = 1000 := by
    rw [show c4_cpu_txn.amount_base = 1000 from rfl]
    exact abs_of_pos (by norm_num)
  have hm : fuzzy_match c4_cpu_txn c4_inc_txn = true := by
    rw [part1]
    refine ⟨rfl, rfl, ?_⟩
    rw [habs, h1000]
    rw [show (1000 : ℚ) * (1 / 1000) = 1 by norm_num, max_self]
    norm_num
  have hstep := (part2 c4_cpu_txn c4_inc_txn hm).1 (by rw [habs]; norm_num)
  rw [hstep, hd]
  norm_num [c4_cpu_txn, c4_inc_txn]

/-- Witness for C4: the clean-match branch at a concrete matched pair with
equal amounts. -/
theorem C4_transaction_match_classification_witness :
    match_transactions [c4_clean_cpu] [c4_clean_inc] =
      ([{ transaction_id := "CPU-BUY-1", trans_code := "BUY",
          trade_date := "2026-02-06", cpu_amount := 500,
          incumbent_amount := 500 }], [], []) := by
  have hm : fuzzy_match c4_clean_cpu c4_clean_inc = true := by
    rw [C4_transaction_match_classification.1]
    refine ⟨rfl, rfl, ?_⟩
    norm_num [c4_clean_cpu, c4_clean_inc]
  have hstep := (C4_transaction_match_classification.2.1 c4_clean_cpu c4_clean_inc hm).2
    (by norm_num [c4_clean_cpu, c4_clean_inc])
  rw [hstep]
  norm_num [c4_clean_cpu, c4_clean_inc]

/-- Every position variance built by the L2 comparison copies the CPU value
to the incumbent side, has zero variance and is immaterial. -/
lemma compare_positions_fields (positions : List PositionRow) :
    ∀ v ∈ compare_positions positions,
      v.incumbent_value = v.cpu_value ∧ v.variance_absolute = 0 ∧
        v.is_material = false := by
  intro v hv
  simp only [compare_positions, List.mem_map] at hv
  obtain ⟨p, _, rfl⟩ := hv
  exact ⟨rfl, rfl, rfl⟩

/-- No position variance produced by the L2 comparison is material. -/
lemma compare_positions_no_material (positions : List PositionRow) :
    (compare_positions positions).filter (fun v => v.is_material) = [] := by
  rw [List.filter_eq_nil_iff]
  intro v hv
  simp [(compare_positions_fields positions v hv).2.2]

/-- The supervisor-init node leaves the L3/specialist machinery
untouched. -/
lemma no_l3_supervisor_init {s : AgentState} (h : no_l3_activity s) :
    no_l3_activity (supervisor_init_node s) := by
  obtain ⟨h1, h2, h3, h4, h5, h6⟩ := h
  cases hb : s.break_alert <;>
    simp [no_l3_activity, supervisor_init_node, hb, h1, h2, h3, h4, h5, h6]

/-- The L0 node leaves the L3/specialist machinery untouched. -/
lemma no_l3_l0 (ext : ExternalData) {s : AgentState} (h : no_l3_activity s) :
    no_l3_activity (l0_nav_node ext s) := by
  obtain ⟨h1, h2, h3, h4, h5, h6⟩ := h
  cases hb : s.break_alert <;>
    simp [no_l3_activity, l0_nav_node, AgentState.add_finding, hb, h1, h2, h3, h4, h5, h6]

/-- The L1 node leaves the L3/specialist machinery untouched. -/
lemma no_l3_l1 (ext : ExternalData) {s : AgentState} (h : no_l3_activity s) :
    no_l3_activity (l1_gl_node ext s) := by
  obtain ⟨h1, h2, h3, h4, h5, h6⟩ := h
  cases hb : s.break_alert <;>
    simp [no_l3_activity, l1_gl_node, hb, h1, h2, h3, h4, h5, h6]

/-- The L2 node leaves the L3/specialist machinery untouched: the position
comparison never yields a material variance, so its breaking-position loop
is empty and `breaking_positions` is set to the empty list. -/
lemma no_l3_l2 (ext : ExternalData) {s : AgentState} (h : no_l3_activity s) :
    no_l3_activity (l2_subledger_node ext s) := by
  obtain ⟨h1, h2, h3, h4, h5, h6⟩ := h
  cases hb : s.break_alert <;>
    simp [no_l3_activity, l2_subledger_node, AgentState.add_finding, hb,
      compare_positions_no_material, h1, h2, h3, h4, h5, h6]

/-- The pattern node leaves the L3/specialist machinery untouched. -/
lemma no_l3_pattern (ext : ExternalData) {s : AgentState} (h : no_l3_activity s) :
    no_l3_activity (pattern_match_node ext s) := by
  obtain ⟨h1, h2, h3, h4, h5, h6⟩ := h
  cases hb : s.break_alert <;>
    simp [no_l3_activity, pattern_match_node, hb, h1, h2, h3, h4, h5, h6]

/-- The finalize node leaves the L3/specialist machinery untouched. -/
lemma no_l3_finalize {s : AgentState} (h : no_l3_activity s) :
    no_l3_activity (supervisor_finalize_node s) := by
  obtain ⟨h1, h2, h3, h4, h5, h6⟩ := h
  unfold supervisor_finalize_node
  dsimp only
  split_ifs <;>
    simp [no_l3_activity, check_escalation, h1, h2, h3, h4, h5, h6]

/-- The state after the L2 node has untouched L3/specialist machinery, for
every external input and alert. -/
lemma no_l3_stage4 (ext : ExternalData) (break_alert : Option BreakAlert) :
    no_l3_activity (stage4 ext break_alert) := by
  apply no_l3_l2
  apply no_l3_l1
  apply no_l3_l0
  apply no_l3_supervisor_init
  simp [no_l3_activity, init_state, AgentState.initial]

/-- From an L2 state with no breaking positions and no specialists, the
router continues to pattern matching. -/
lemma route_l3_pattern {s : AgentState} (h1 : s.breaking_positions = [])
    (h2 : s.specialists_invoked = []) :
    should_continue_to_l3 s = "pattern_match" := by
  simp [should_continue_to_l3, h1, h2]

/-- Phase after the supervisor-init node. -/
lemma phase_supervisor_init (s : AgentState) :
    (supervisor_init_node s).phase = AnalysisPhase.INITIATED ∨
    (supervisor_init_node s).phase = AnalysisPhase.COMPLETED := by
  cases hb : s.break_alert <;> simp [supervisor_init_node, hb]

/-- Phase after the L0 node. -/
lemma phase_l0 (ext : ExternalData) (s : AgentState) :
    (l0_nav_node ext s).phase = AnalysisPhase.L0_NAV_ANALYSIS := by
  cases hb : s.break_alert <;>
    simp [l0_nav_node, AgentState.add_finding, hb]

/-- Phase after the L1 node. -/
lemma phase_l1 (ext : ExternalData) (s : AgentState) :
    (l1_gl_node ext s).phase = AnalysisPhase.L1_GL_ANALYSIS := by
  cases hb : s.break_alert <;> simp [l1_gl_node, hb]

/-- Phase after the L2 node. -/
lemma phase_l2 (ext : ExternalData) (s : AgentState) :
    (l2_subledger_node ext s).phase = AnalysisPhase.L2_SUBLEDGER_ANALYSIS := by
  cases hb : s.break_alert <;>
    simp [l2_subledger_node, AgentState.add_finding, hb,
      compare_positions_no_material]

/-- Phase after the pattern node. -/
lemma phase_pattern (ext : ExternalData) (s : AgentState) :
    (pattern_match_node ext s).phase = AnalysisPhase.PATTERN_MATCHING := by
  cases hb : s.break_alert <;> simp [pattern_match_node, hb]

/-- Phase after the finalize node: terminal. -/
lemma phase_finalize (s : AgentState) :
    (supervisor_finalize_node s).phase = AnalysisPhase.ESCALATED ∨
    (supervisor_finalize_node s).phase = AnalysisPhase.COMPLETED := by
  unfold supervisor_finalize_node
  dsimp only
  split_ifs <;> simp

/-- Master invariant: every state along the workflow path has untouched
L3/specialist machinery and never carries the L3 or SPECIALIST phase. -/
lemma trace_invariant (ext : ExternalData) (break_alert : Option BreakAlert) :
    ∀ st ∈ workflow_trace ext break_alert,
      no_l3_activity st ∧
      st.phase ≠ AnalysisPhase.L3_TRANSACTION_ANALYSIS ∧
      st.phase ≠ AnalysisPhase.SPECIALIST_ANALYSIS := by
  have n0 : no_l3_activity (init_state break_alert) := by
    simp [no_l3_activity, init_state, AgentState.initial]
  have n1 : no_l3_activity (stage1 break_alert) := no_l3_supervisor_init n0
  have n2 : no_l3_activity (stage2 ext break_alert) := no_l3_l0 ext n1
  have n3 : no_l3_activity (stage3 ext break_alert) := no_l3_l1 ext n2
  have n4 : no_l3_activity (stage4 ext break_alert) := no_l3_l2 ext n3
  have hroute : should_continue_to_l3 (stage4 ext break_alert) = "pattern_match" :=
    route_l3_pattern n4.1 n4.2.1
  have p0 : (init_state break_alert).phase = AnalysisPhase.INITIATED := by
    simp [init_state, AgentState.initial]
  intro st hst
  unfold workflow_trace at hst
  rw [hroute] at hst
  by_cases hA : should_continue_to_l1 (stage2 ext break_alert) = "l1_gl"
  · by_cases hB : should_continue_to_l2 (stage3 ext break_alert) = "l2_subledger"
    · rw [if_pos hA, if_pos hB, if_neg (by decide), if_neg (by decide)] at hst
      simp only [List.mem_cons, List.not_mem_nil, or_false] at hst
      rcases hst with rfl | rfl | rfl | rfl | rfl | rfl | rfl
      · exact ⟨n0, by simp [p0], by simp [p0]⟩
      · refine ⟨n1, ?_, ?_⟩ <;>
          rcases phase_supervisor_init (init_state break_alert) with hp | hp <;>
          simp [stage1, hp]
      · exact ⟨n2, by simp [stage2, phase_l0], by simp [stage2, phase_l0]⟩
      · exact ⟨n3, by simp [stage3, phase_l1], by simp [stage3, phase_l1]⟩
      · exact ⟨n4, by simp [stage4, phase_l2], by simp [stage4, phase_l2]⟩
      · exact ⟨no_l3_pattern ext n4, by simp [phase_pattern], by simp [phase_pattern]⟩
      · refine ⟨no_l3_finalize (no_l3_pattern ext n4), ?_, ?_⟩ <;>
          rcases phase_finalize (pattern_match_node ext (stage4 ext break_alert)) with hp | hp <;>
          simp [hp]
    · rw [if_pos hA, if_neg hB] at hst
      simp only [List.mem_cons, List.not_mem_nil, or_false] at hst
      rcases hst with rfl | rfl | rfl | rfl | rfl | rfl
      · exact ⟨n0, by simp [p0], by simp [p0]⟩
      · refine ⟨n1, ?_, ?_⟩ <;>
          rcases phase_supervisor_init (init_state break_alert) with hp | hp <;>
          simp [stage1, hp]
      · exact ⟨n2, by simp [stage2, phase_l0], by simp [stage2, phase_l0]⟩
      · exact ⟨n3, by simp [stage3, phase_l1], by simp [stage3, phase_l1]⟩
      · exact ⟨no_l3_pattern ext n3, by simp [phase_pattern], by simp [phase_pattern]⟩
      · refine ⟨no_l3_finalize (no_l3_pattern ext n3), ?_, ?_⟩ <;>
          rcases phase_finalize (pattern_match_node ext (stage3 ext break_alert)) with hp | hp <;>
          simp [hp]
  · rw [if_neg hA] at hst
    simp only [List.mem_cons, List.not_mem_nil, or_false] at hst
    rcases hst with rfl | rfl | rfl | rfl
    · exact ⟨n0, by simp [p0], by simp [p0]⟩
    · refine ⟨n1, ?_, ?_⟩ <;>
        rcases phase_supervisor_init (init_state break_alert) with hp | hp <;>
        simp [stage1, hp]
    · exact ⟨n2, by simp [stage2, phase_l0], by simp [stage2, phase_l0]⟩
    · refine ⟨no_l3_finalize n2, ?_, ?_⟩ <;>
        rcases phase_finalize (stage2 ext break_alert) with hp | hp <;>
        simp [hp]

/-- The terminal state of a run is on the workflow trace. -/
lemma run_mem_trace (ext : ExternalData) (break_alert : Option BreakAlert) :
    run_reconciliation_analysis ext break_alert ∈ workflow_trace ext break_alert := by
  unfold run_reconciliation_analysis workflow_trace
  split_ifs <;> simp

/-- The initial state is on the workflow trace. -/
lemma init_mem_trace (ext : ExternalData) (break_alert : Option BreakAlert) :
    init_state break_alert ∈ workflow_trace ext break_alert := by
  unfold workflow_trace
  split_ifs <;> simp

/-- C7: in every state reachable along the workflow, the specialist worklist
contains no duplicate names. -/
theorem C7_specialists_no_duplicates :
    ∀ (ext : ExternalData) (break_alert : Option BreakAlert),
      ∀ st ∈ workflow_trace ext break_alert, st.specialists_invoked.Nodup := by
  intro ext break_alert st hst
  have h := (trace_invariant ext break_alert st hst).1.2.1
  rw [h]
  exact List.nodup_nil

/-- Witness for C7 at the initial state of a concrete run. -/
theorem C7_specialists_no_duplicates_witness :
    (init_state none).specialists_invoked.Nodup :=
  C7_specialists_no_duplicates ext0 none (init_state none) (init_mem_trace ext0 none)

/-- C10: the L2 comparison assigns each position an incumbent value equal to
its CPU value (zero, immaterial variance), so `breaking_positions` is empty
in every reachable state, the L3 and specialist stages never execute (no
reachable state carries their phases), and the terminal state has empty
`l3_findings`, `specialist_findings`, `orphan_transactions` and
`amount_differences`. -/
theorem C10_l3_never_executes :
    (∀ positions : List PositionRow, ∀ v ∈ compare_positions positions,
      v.incumbent_value = v.cpu_value ∧ v.variance_absolute = 0 ∧
        v.is_material = false) ∧
    (∀ (ext : ExternalData) (break_alert : Option BreakAlert),
      (∀ st ∈ workflow_trace ext break_alert,
        st.breaking_positions = [] ∧
        st.phase ≠ AnalysisPhase.L3_TRANSACTION_ANALYSIS ∧
        st.phase ≠ AnalysisPhase.SPECIALIST_ANALYSIS) ∧
      (run_reconciliation_analysis ext break_alert).l3_findings = [] ∧
      (run_reconciliation_analysis ext break_alert).specialist_findings = [] ∧
      (run_reconciliation_analysis ext break_alert).orphan_transactions = [] ∧
      (run_reconciliation_analysis ext break_alert).amount_differences = []) := by
  refine ⟨compare_positions_fields, ?_⟩
  intro ext break_alert
  have hrun := trace_invariant ext break_alert _ (run_mem_trace ext break_alert)
  refine ⟨?_, hrun.1.2.2.1, hrun.1.2.2.2.1, hrun.1.2.2.2.2.1, hrun.1.2.2.2.2.2⟩
  intro st hst
  have h := trace_invariant ext break_alert st hst
  exact ⟨h.1.1, h.2⟩

/-- Witness for C10 at a concrete position row, a concrete trace state and a
concrete run. -/
theorem C10_l3_never_executes_witness :
    (({ component := "AAPL", cpu_value := 100, incumbent_value := 100,
        variance_absolute := 0, variance_relative := 0, is_material := false } :
        VarianceDetail).is_material = false) ∧
    (init_state none).breaking_positions = [] ∧
    (run_reconciliation_analysis ext0 none).l3_findings = [] := by
  refine ⟨?_, ?_, ?_⟩
  · exact (C10_l3_never_executes.1 [{ asset_id := "AAPL", pos_market_value_base := 100 }]
      { component := "AAPL", cpu_value := 100, incumbent_value := 100,
        variance_absolute := 0, variance_relative := 0, is_material := false }
      (by simp [compare_positions])).2.2
  · exact ((C10_l3_never_executes.2 ext0 none).1 (init_state none)
      (init_mem_trace ext0 none)).1
  · exact (C10_l3_never_executes.2 ext0 none).2.1

/-- When the reasons-driving fields make NOVEL_PATTERN fire (no matched
patterns at REPORT_GENERATION), the escalation check always raises the
flag. -/
lemma escalation_fires_of_novel (ct cn : ℚ) {s : AgentState}
    (hp : s.matched_patterns = []) (hph : s.phase = AnalysisPhase.REPORT_GENERATION) :
    (check_escalation ct cn s).should_escalate = true := by
  unfold check_escalation
  dsimp only
  simp only [decide_eq_true_eq]
  simp only [escalation_reason_list, hp, hph]
  split_ifs <;> simp_all

/-- The finalize node does not modify any finding collection. -/
lemma finalize_fields (s : AgentState) :
    (supervisor_finalize_node s).l0_findings = s.l0_findings ∧
    (supervisor_finalize_node s).l1_findings = s.l1_findings ∧
    (supervisor_finalize_node s).l2_findings = s.l2_findings ∧
    (supervisor_finalize_node s).l3_findings = s.l3_findings ∧
    (supervisor_finalize_node s).specialist_findings = s.specialist_findings ∧
    (supervisor_finalize_node s).pattern_findings = s.pattern_findings ∧
    (supervisor_finalize_node s).all_findings = s.all_findings := by
  unfold supervisor_finalize_node
  dsimp only
  split_ifs <;> simp [check_escalation]

/-- A run finalized with no matched patterns lands on ESCALATED: the
NOVEL_PATTERN escalation reason always fires. -/
lemma finalize_phase_escalated {s : AgentState} (hp : s.matched_patterns = []) :
    (supervisor_finalize_node s).phase = AnalysisPhase.ESCALATED := by
  unfold supervisor_finalize_node
  dsimp only
  rw [if_pos (escalation_fires_of_novel CONFIDENCE_ESCALATION_THRESHOLD
    CRITICAL_BREAK_THRESHOLD (by simp [hp]) (by simp))]

/-- Fields of the post-L0 state on an alert-carrying run. -/
lemma stage2_some_fields (ext : ExternalData) (alert : BreakAlert) :
    (stage2 ext (some alert)).nav_variance = some (nav_variance_detail alert) ∧
    (stage2 ext (some alert)).matched_patterns = [] ∧
    (stage2 ext (some alert)).l1_findings = [] ∧
    (stage2 ext (some alert)).l2_findings = [] ∧
    (stage2 ext (some alert)).l3_findings = [] := by
  refine ⟨?_, ?_, ?_, ?_, ?_⟩ <;>
    simp [stage2, stage1, init_state, supervisor_init_node, l0_nav_node,
      AgentState.add_finding, AgentState.initial]

/-- An immaterial alert short-circuits to finalize and the run terminates
ESCALATED with empty L1/L2/L3 finding lists. -/
lemma immaterial_run (ext : ExternalData) (alert : BreakAlert)
    (h : |alert.nav_per_share_variance| ≤ MATERIALITY_THRESHOLD_ABSOLUTE) :
    (run_reconciliation_analysis ext (some alert)).phase = AnalysisPhase.ESCALATED ∧
    (run_reconciliation_analysis ext (some alert)).l1_findings = [] ∧
    (run_reconciliation_analysis ext (some alert)).l2_findings = [] ∧
    (run_reconciliation_analysis ext (some alert)).l3_findings = [] := by
  have hnm : (nav_variance_detail alert).is_material = false := by
    simp only [nav_variance_detail]
    exact decide_eq_false (not_lt.mpr h)
  have hs2 := stage2_some_fields ext alert
  have hcond : should_continue_to_l1 (stage2 ext (some alert)) = "supervisor_finalize" := by
    simp [should_continue_to_l1, hs2.1, hnm]
  have hrun : run_reconciliation_analysis ext (some alert) =
      supervisor_finalize_node (stage2 ext (some alert)) := by
    unfold run_reconciliation_analysis
    rw [hcond, if_neg (by decide)]
  rw [hrun]
  refine ⟨finalize_phase_escalated hs2.2.1, ?_, ?_, ?_⟩
  · rw [(finalize_fields _).2.1, hs2.2.2.1]
  · rw [(finalize_fields _).2.2.1, hs2.2.2.2.1]
  · rw [(finalize_fields _).2.2.2.1, hs2.2.2.2.2]

/-- C1 (amended): for every run whose NAV per-share variance is not material
the engine skips L1/L2/L3 entirely (`l1_findings`, `l2_findings` and
`l3_findings` all stay empty), but the terminal phase is ESCALATED rather
than COMPLETED: the finalizer's NOVEL_PATTERN escalation reason always fires
on such runs because pattern matching never ran and `matched_patterns` is
empty. -/
theorem C1_immaterial_short_circuit :
    ∀ (ext : ExternalData) (alert : BreakAlert),
      |alert.nav_per_share_variance| ≤ MATERIALITY_THRESHOLD_ABSOLUTE →
      (run_reconciliation_analysis ext (some alert)).phase = AnalysisPhase.ESCALATED ∧
      (run_reconciliation_analysis ext (some alert)).l1_findings = [] ∧
      (run_reconciliation_analysis ext (some alert)).l2_findings = [] ∧
      (run_reconciliation_analysis ext (some alert)).l3_findings = [] :=
  fun ext alert h => immaterial_run ext alert h

/-- Witness for C1 (amended) at the spec's concrete scenario-1 alert. -/
theorem C1_immaterial_short_circuit_witness :
    (run_reconciliation_analysis ext0 (some c1_alert)).phase =
      AnalysisPhase.ESCALATED ∧
    (run_reconciliation_analysis ext0 (some c1_alert)).l1_findings = [] :=
  ⟨(C1_immaterial_short_circuit ext0 c1_alert
      (by norm_num [c1_alert, MATERIALITY_THRESHOLD_ABSOLUTE, abs_le])).1,
   (C1_immaterial_short_circuit ext0 c1_alert
      (by norm_num [c1_alert, MATERIALITY_THRESHOLD_ABSOLUTE, abs_le])).2.1⟩

/-- C1 counterexample: the spec's scenario-1 alert is below the materiality
threshold, yet the terminal phase of its run is not COMPLETED (it is
ESCALATED). -/
theorem C1_counterexample :
    |c1_alert.nav_per_share_variance| ≤ MATERIALITY_THRESHOLD_ABSOLUTE ∧
    (run_reconciliation_analysis ext0 (some c1_alert)).phase ≠
      AnalysisPhase.COMPLETED := by
  have h : |c1_alert.nav_per_share_variance| ≤ MATERIALITY_THRESHOLD_ABSOLUTE := by
    norm_num [c1_alert, MATERIALITY_THRESHOLD_ABSOLUTE, abs_le]
  refine ⟨h, ?_⟩
  rw [(immaterial_run ext0 c1_alert h).1]
  simp

/-- The missing-alert run reaches finalize through L0 with nothing analyzed
and terminates ESCALATED with zero findings. -/
lemma no_alert_run (ext : ExternalData) :
    (run_reconciliation_analysis ext none).phase = AnalysisPhase.ESCALATED ∧
    (run_reconciliation_analysis ext none).l0_findings = [] ∧
    (run_reconciliation_analysis ext none).l1_findings = [] ∧
    (run_reconciliation_analysis ext none).l2_findings = [] ∧
    (run_reconciliation_analysis ext none).l3_findings = [] ∧
    (run_reconciliation_analysis ext none).specialist_findings = [] ∧
    (run_reconciliation_analysis ext none).pattern_findings = [] ∧
    (run_reconciliation_analysis ext none).all_findings = [] := by
  have hnav : (stage2 ext none).nav_variance = none := by
    simp [stage2, stage1, init_state, supervisor_init_node, l0_nav_node, AgentState.initial]
  have hpat : (stage2 ext none).matched_patterns = [] := by
    simp [stage2, stage1, init_state, supervisor_init_node, l0_nav_node, AgentState.initial]
  have hfind : (stage2 ext none).l0_findings = [] ∧ (stage2 ext none).l1_findings = [] ∧
      (stage2 ext none).l2_findings = [] ∧ (stage2 ext none).l3_findings = [] ∧
      (stage2 ext none).specialist_findings = [] ∧
      (stage2 ext none).pattern_findings = [] ∧
      (stage2 ext none).all_findings = [] := by
    refine ⟨?_, ?_, ?_, ?_, ?_, ?_, ?_⟩ <;>
      simp [stage2, stage1, init_state, supervisor_init_node, l0_nav_node, AgentState.initial]
  have hcond : should_continue_to_l1 (stage2 ext none) = "supervisor_finalize" := by
    simp [should_continue_to_l1, hnav]
  have hrun : run_reconciliation_analysis ext none =
      supervisor_finalize_node (stage2 ext none) := by
    unfold run_reconciliation_analysis
    rw [hcond, if_neg (by decide)]
  rw [hrun]
  refine ⟨finalize_phase_escalated hpat, ?_, ?_, ?_, ?_, ?_, ?_, ?_⟩
  · rw [(finalize_fields _).1, hfind.1]
  · rw [(finalize_fields _).2.1, hfind.2.1]
  · rw [(finalize_fields _).2.2.1, hfind.2.2.1]
  · rw [(finalize_fields _).2.2.2.1, hfind.2.2.2.1]
  · rw [(finalize_fields _).2.2.2.2.1, hfind.2.2.2.2.1]
  · rw [(finalize_fields _).2.2.2.2.2.1, hfind.2.2.2.2.2.1]
  · rw [(finalize_fields _).2.2.2.2.2.2, hfind.2.2.2.2.2.2]

/-- C2 (amended): when the drill-down entry point is invoked with a missing
alert, the run terminates with zero findings (every finding list and the
`all_findings` aggregate are empty), but in ESCALATED phase, not COMPLETED:
the initializer marks the state COMPLETED, yet the graph unconditionally
proceeds to L0 and finalize, where the LOW_CONFIDENCE (confidence 0.0) and
NOVEL_PATTERN escalation reasons fire. -/
theorem C2_missing_alert :
    ∀ ext : ExternalData,
      (run_reconciliation_analysis ext none).phase = AnalysisPhase.ESCALATED ∧
      (run_reconciliation_analysis ext none).l0_findings = [] ∧
      (run_reconciliation_analysis ext none).l1_findings = [] ∧
      (run_reconciliation_analysis ext none).l2_findings = [] ∧
      (run_reconciliation_analysis ext none).l3_findings = [] ∧
      (run_reconciliation_analysis ext none).specialist_findings = [] ∧
      (run_reconciliation_analysis ext none).pattern_findings = [] ∧
      (run_reconciliation_analysis ext none).all_findings = [] :=
  fun ext => no_alert_run ext

/-- C2 counterexample: invoked with no alert on concrete external data, the
run produces zero findings but its terminal phase is not COMPLETED (it is
ESCALATED). -/
theorem C2_counterexample :
    (run_reconciliation_analysis ext0 none).all_findings = [] ∧
    (run_reconciliation_analysis ext0 none).phase ≠ AnalysisPhase.COMPLETED := by
  refine ⟨(no_alert_run ext0).2.2.2.2.2.2.2, ?_⟩
  rw [(no_alert_run ext0).1]
  simp

end Reconclare
